import Mathlib

set_option linter.dupNamespace false

/-!
# LIGGGHTS-PFM: rolling model EPSD2 and the SPH time-step check

A shallow embedding of

* `src/rolling_model_epsd2.h`  (`RollingModel<ROLLING_EPSD2>`: `collision`,
  `noCollision`, `calcRollTorque`),
* `src/fix_check_timestep_sph.cpp` (`FixCheckTimestepSph`: the constructor,
  `end_of_step`, `calc_courant_estims`, `calc_courant_estims_eval`,
  `compute_vector`),
* `src/create_box.cpp` (`CreateBox::command`),

followed by the properties proved about them.

Conventions of the embedding.

* A C `double` is an element of a linearly ordered field `α`; the theorems take
  `α := ℝ`, so every statement is about exact real arithmetic and says nothing
  about IEEE rounding, infinities or NaN.  The definitions are generic in `α`
  and computable; the square root of `libm` is an explicit argument `sqrt`,
  instantiated with `Real.sqrt` in the theorems.
* A C `int` is an `Int`; the only place where a value can leave the range of
  `int` is the result of `atoi`, which is reduced to 32 bits there.
* A `double[3]` is a `Vec3`; a `double *` into the contact history is a function
  `Int → α` (an unbounded buffer addressed by index); an `int *` that may be
  `NULL` is an `Option Int`.
* A member function that writes through its reference arguments returns the new
  values of what it may write.
* `error->all` aborts the run: it is the `Except.error` result.
* A local variable read before it is assigned has an indeterminate value; that
  value is an input of the embedding (`sli_entry`, `j_maxmu_entry`).
* A collective over `world` is a function of what this process and the other
  processes contribute; the other processes run the same fix on their own
  particles.
-/

namespace LIGGGHTS

/-! ## Vectors -/

/-- A `double[3]`. -/
structure Vec3 (α : Type) where
  x : α
  y : α
  z : α
  deriving DecidableEq, Repr

namespace Vec3

variable {α : Type}

/-- Componentwise sum. -/
def add [Add α] (a b : Vec3 α) : Vec3 α := ⟨a.x + b.x, a.y + b.y, a.z + b.z⟩

/-- Componentwise difference. -/
def sub [Sub α] (a b : Vec3 α) : Vec3 α := ⟨a.x - b.x, a.y - b.y, a.z - b.z⟩

/-- The vector scaled by `s`. -/
def smul [Mul α] (s : α) (a : Vec3 α) : Vec3 α := ⟨s * a.x, s * a.y, s * a.z⟩

/-- The scalar product. -/
def dot [Add α] [Mul α] (a b : Vec3 α) : α := a.x * b.x + a.y * b.y + a.z * b.z

end Vec3

section Helpers

variable {α : Type} [LinearOrderedField α]

/-- Modelled from the spec: `vectorSubtract3D(v1,v2,result)` of
`vector_liggghts.h` (not under `src/`), the vector difference `v1 - v2` of the
two spins. -/
def vectorSubtract3D (v1 v2 : Vec3 α) : Vec3 α :=
  ⟨v1.x - v2.x, v1.y - v2.y, v1.z - v2.z⟩

/-- Modelled from the spec: `vectorScalarMult3D(v,s,result)` of
`vector_liggghts.h` (not under `src/`), the vector `v` scaled by `s`. -/
def vectorScalarMult3D (v : Vec3 α) (s : α) : Vec3 α :=
  ⟨s * v.x, s * v.y, s * v.z⟩

/-- Modelled from the spec: `vectorMag3D(v)` of `vector_liggghts.h` (not under
`src/`), the Euclidean magnitude `sqrt(v0*v0 + v1*v1 + v2*v2)`; `sqrt` is the
square root of the C library. -/
def vectorMag3D (sqrt : α → α) (v : Vec3 α) : α :=
  sqrt (v.x * v.x + v.y * v.y + v.z * v.z)

end Helpers

/-! ## Contact data -/

/-- The members of `ContactData` that the rolling model reads or writes:
`int * touch` (may be `NULL`) and `double * contact_history`. -/
structure ContactData (α : Type) where
  touch : Option Int
  contact_history : Int → α

/-- The members of `CollisionData` (which derives from `ContactData`) that the
rolling model reads. -/
structure CollisionData (α : Type) extends ContactData α where
  is_wall : Bool
  wr1 : α
  wr2 : α
  wr3 : α
  radi : α
  radj : α
  i : Int
  j : Int
  itype : Int
  jtype : Int
  en : Vec3 α
  kt : α
  Fn : α

/-- The force and torque accumulators of one side of a contact. -/
structure ForceData (α : Type) where
  delta_F : Vec3 α
  delta_torque : Vec3 α

/-- The object `RollingModel<ROLLING_EPSD2>` together with what it reaches
through `Pointers`: its members `coeffRollFrict` and `history_offset`, the time
step `update->dt`, the spins `atom->omega`, and the constant
`TOUCH_ROLLING_MODEL` of `contact_models.h` (not under `src/`, hence a field). -/
structure RollingModel (α : Type) where
  coeffRollFrict : Int → Int → α
  history_offset : Int
  dt : α
  omega : Int → Vec3 α
  TOUCH_ROLLING_MODEL : Int

/-- What `collision` leaves behind: the contact data (touch marker and history
written) and the two force accumulators. -/
structure CollisionResult (α : Type) where
  cdata : CollisionData α
  i_forces : ForceData α
  j_forces : ForceData α

/-- What `noCollision` leaves behind. -/
structure NoCollisionResult (α : Type) where
  cdata : ContactData α
  i_forces : ForceData α
  j_forces : ForceData α

namespace RollingModel

variable {α : Type} [LinearOrderedField α]

/-- The three scalars `c_history[0..2]` with `c_history = &contact_history[off]`. -/
def historySlice (contact_history : Int → α) (off : Int) : Vec3 α :=
  ⟨contact_history (off + 0), contact_history (off + 1), contact_history (off + 2)⟩

/-- The three assignments `c_history[0] = v0; c_history[1] = v1; c_history[2] = v2`. -/
def storeHistory (contact_history : Int → α) (off : Int) (v : Vec3 α) : Int → α :=
  Function.update
    (Function.update (Function.update contact_history (off + 0) v.x) (off + 1) v.y)
    (off + 2) v.z

/-- Line 140: `wr_dot_delta = wr1*enx + wr2*eny + wr3*enz`. -/
def wr_dot_delta (en : Vec3 α) (wr1 wr2 wr3 : α) : α :=
  wr1 * en.x + wr2 * en.y + wr3 * en.z

/-- Lines 141-143: `wr_n = en * wr_dot_delta`. -/
def wr_n (en : Vec3 α) (wr1 wr2 wr3 : α) : Vec3 α :=
  ⟨en.x * wr_dot_delta en wr1 wr2 wr3, en.y * wr_dot_delta en wr1 wr2 wr3,
   en.z * wr_dot_delta en wr1 wr2 wr3⟩

/-- Lines 144-146: `wr_t = wr - wr_n`. -/
def wr_t (en : Vec3 α) (wr1 wr2 wr3 : α) : Vec3 α :=
  ⟨wr1 - (wr_n en wr1 wr2 wr3).x, wr2 - (wr_n en wr1 wr2 wr3).y,
   wr3 - (wr_n en wr1 wr2 wr3).z⟩

/-- Line 149: `kr = cdata.kt*reff*reff`. -/
def kr (kt reff : α) : α := kt * reff * reff

/-- Lines 151-156: the candidate `r_torque = c_history + wr_t * (dt*kr)` before
the limiter. -/
def r_torque_candidate (m : RollingModel α) (cdata : CollisionData α)
    (reff wr1 wr2 wr3 : α) : Vec3 α :=
  let c_history := historySlice cdata.contact_history m.history_offset
  let dr_torque := vectorScalarMult3D (wr_t cdata.en wr1 wr2 wr3) (m.dt * kr cdata.kt reff)
  ⟨c_history.x + dr_torque.x, c_history.y + dr_torque.y, c_history.z + dr_torque.z⟩

/-- Line 160: `r_torque_max = fabs(cdata.Fn)*reff*rmu` with
`rmu = coeffRollFrict[cdata.itype][cdata.jtype]`. -/
def r_torque_max (m : RollingModel α) (cdata : CollisionData α) (reff : α) : α :=
  |cdata.Fn| * reff * m.coeffRollFrict cdata.itype cdata.jtype

/-- The unclipped candidate in the words of the specification:
`history + dt*(kt*reff^2)*wr_t` with `wr_t = wr - (wr.en)*en`. -/
def specCandidate (history en wr : Vec3 α) (dt kt reff : α) : Vec3 α :=
  Vec3.add history
    (Vec3.smul (dt * (kt * reff ^ 2)) (Vec3.sub wr (Vec3.smul (Vec3.dot wr en) en)))

/-- The member `calcRollTorque(r_torque,cdata,reff,wr1,wr2,wr3)`: returns the new
`r_torque` and the contact-history buffer after the three final stores. -/
def calcRollTorque (sqrt : α → α) (m : RollingModel α) (cdata : CollisionData α)
    (reff wr1 wr2 wr3 : α) : Vec3 α × (Int → α) :=
  let r_torque := r_torque_candidate m cdata reff wr1 wr2 wr3
  -- limit max. torque
  let r_torque_mag := vectorMag3D sqrt r_torque
  let r_torque_max := r_torque_max m cdata reff
  let r_torque :=
    if r_torque_mag > r_torque_max then
      let factor := r_torque_max / r_torque_mag
      (⟨r_torque.x * factor, r_torque.y * factor, r_torque.z * factor⟩ : Vec3 α)
    else
      r_torque
  -- save rolling torque due to spring
  (r_torque, storeHistory cdata.contact_history m.history_offset r_torque)

/-- The member `collision(cdata,i_forces,j_forces)`.  The local `r_torque` is zeroed on entry
and then overwritten in all three components by `calcRollTorque`. -/
def collision (sqrt : α → α) (m : RollingModel α) (cdata : CollisionData α)
    (i_forces j_forces : ForceData α) : CollisionResult α :=
  -- if(cdata.touch) *cdata.touch |= TOUCH_ROLLING_MODEL;
  let touch := cdata.touch.map fun t => Int.lor t m.TOUCH_ROLLING_MODEL
  let cdata : CollisionData α := { cdata with touch := touch }
  let out :=
    if cdata.is_wall then
      let radius := cdata.radi
      calcRollTorque sqrt m cdata radius cdata.wr1 cdata.wr2 cdata.wr3
    else
      let reff := cdata.radi * cdata.radj / (cdata.radi + cdata.radj)
      -- relative rotational velocity
      let wr_roll := vectorSubtract3D (m.omega cdata.i) (m.omega cdata.j)
      calcRollTorque sqrt m cdata reff wr_roll.x wr_roll.y wr_roll.z
  let r_torque := out.1
  { cdata := { cdata with contact_history := out.2 }
    i_forces :=
      { i_forces with
        delta_torque :=
          ⟨i_forces.delta_torque.x - r_torque.x, i_forces.delta_torque.y - r_torque.y,
           i_forces.delta_torque.z - r_torque.z⟩ }
    j_forces :=
      { j_forces with
        delta_torque :=
          ⟨j_forces.delta_torque.x + r_torque.x, j_forces.delta_torque.y + r_torque.y,
           j_forces.delta_torque.z + r_torque.z⟩ } }

/-- The member `noCollision(cdata,i_forces,j_forces)`. -/
def noCollision (m : RollingModel α) (cdata : ContactData α)
    (i_forces j_forces : ForceData α) : NoCollisionResult α :=
  -- if(cdata.touch) *cdata.touch &= ~TOUCH_ROLLING_MODEL;
  let touch := cdata.touch.map fun t => Int.land t (Int.lnot m.TOUCH_ROLLING_MODEL)
  { cdata :=
      { touch := touch
        contact_history := storeHistory cdata.contact_history m.history_offset ⟨0, 0, 0⟩ }
    i_forces := i_forces
    j_forces := j_forces }

end RollingModel

/-! ## The C library's `atoi` and `atof` -/

/-- The predicate `isspace` in the C locale: space and the control characters `\t` .. `\r`. -/
def isspace (c : Char) : Bool :=
  c.toNat = 32 || (9 ≤ c.toNat && c.toNat ≤ 13)

/-- Drops the leading white space that `strtol` and `strtod` skip. -/
def skipSpace : List Char → List Char
  | [] => []
  | c :: cs => if isspace c then skipSpace cs else c :: cs

/-- Reads the longest prefix of decimal digits, continuing the value `acc`:
returns the value, the number of digits read and the unread rest. -/
def readDigits (acc : Nat) : List Char → Nat × Nat × List Char
  | [] => (acc, 0, [])
  | c :: cs =>
    if c.isDigit then
      let r := readDigits (acc * 10 + (c.toNat - 48)) cs
      (r.1, r.2.1 + 1, r.2.2)
    else
      (acc, 0, c :: cs)

/-- Reads an optional sign: whether it was `-`, and the rest. -/
def readSign : List Char → Bool × List Char
  | '-' :: cs => (true, cs)
  | '+' :: cs => (false, cs)
  | cs => (false, cs)

/-- The function `atoi` of `stdlib.h`, which is `(int) strtol(s, NULL, 10)`: white
space, an optional sign, then the longest run of decimal digits, `0` when there
is none; `strtol` returns `LONG_MIN` or `LONG_MAX` for a value outside the range
of `long` (64 bits), and the conversion to `int` keeps the low 32 bits as a
signed number. -/
def atoi (s : String) : Int :=
  let r := readSign (skipSpace s.toList)
  let v : Int := (readDigits 0 r.2).1
  let l : Int := if r.1 then -v else v
  let l : Int := max (-9223372036854775808) (min l 9223372036854775807)
  (l + 2147483648) % 4294967296 - 2147483648

/-- The exponent part that may follow the digits of a decimal floating
constant: `e` or `E`, an optional sign and at least one digit; `0` otherwise. -/
def readExponent : List Char → Int
  | c :: cs =>
    if c = 'e' || c = 'E' then
      let r := readSign cs
      let d := readDigits 0 r.2
      if d.2.1 = 0 then 0 else if r.1 then -(d.1 : Int) else (d.1 : Int)
    else 0
  | [] => 0

/-- The rational `m * 10^e`. -/
def scale10 (m : Nat) (e : Int) : ℚ :=
  if 0 ≤ e then (m : ℚ) * (10 : ℚ) ^ e.toNat else (m : ℚ) / (10 : ℚ) ^ (-e).toNat

/-- The parts of a decimal floating constant as `strtod` reads it: white space,
an optional sign, digits with an optional radix point, an optional exponent.
Returns whether the sign is `-`, the digits read as one natural number, and the
power of ten to scale it by; `(false, 0, 0)` when no digit is found. -/
def atofParts (s : String) : Bool × Nat × Int :=
  let r := readSign (skipSpace s.toList)
  let ip := readDigits 0 r.2
  let fp : Nat × Nat × List Char :=
    match ip.2.2 with
    | '.' :: cs => readDigits ip.1 cs
    | cs => (ip.1, 0, cs)
  if ip.2.1 + fp.2.1 = 0 then (false, 0, 0)
  else (r.1, fp.1, readExponent fp.2.2 - (fp.2.1 : Int))

/-- Whether `s` is written in the decimal notation of `strtod`: after white space
and an optional sign it starts with a digit, or with a radix point followed by a
digit, and does not start with the hexadecimal prefix `0x` or `0X`.  (This
excludes the hexadecimal, `INF` and `NAN` forms and the strings without a
number.) -/
def atofDecimal (s : String) : Bool :=
  match (readSign (skipSpace s.toList)).2 with
  | [] => false
  | [c] => c.isDigit
  | c :: d :: _ =>
    if c = '0' then !(d = 'x' || d = 'X')
    else c.isDigit || (c = '.' && d.isDigit)

/-- The function `atof` of `stdlib.h` on a string in decimal notation
(`atofDecimal`) whose value is in the range of a `double`: white space, an
optional sign, digits with an optional radix point, an optional exponent.  The
result is the exact rational value of the numeral (the C function rounds it to a
`double`).  The hexadecimal, `INF` and `NAN` forms and the values that overflow
have no place in this embedding of `double`; on them the definition does not
follow the C function, and nothing is stated about it there. -/
def atof (s : String) : ℚ :=
  let p := atofParts s
  let v := scale10 p.2.1 p.2.2
  if p.1 then -v else v

/-! ## `FixCheckTimestepSph` -/

/-- The members of `FixCheckTimestepSph` that its constructor sets. -/
structure FixCheckTimestepSph (α : Type) where
  nevery : Int
  fraction_courant_lim : α
  warnflag : Bool
  vector_flag : Int
  size_vector : Int
  global_freq : Int
  extvector : Int
  fraction_courant : α
  fraction_skin : α

/-- The body of the constructor `FixCheckTimestepSph(lmp, narg, arg)`, run after
the base-class constructor `FixSph(lmp, narg, arg)` (not under `src/`) has
returned; `narg` is the length of `arg`. -/
def FixCheckTimestepSph.FixCheckTimestepSph {α : Type} [DivisionRing α] (arg : List String) :
    Except String (FixCheckTimestepSph α) :=
  let narg := arg.length
  let iarg := 3
  if narg < iarg + 2 then
    .error "Illegal fix check/timestep/sph command, not enough arguments"
  else
    let nevery := atoi (arg.getD iarg "")
    let fraction_courant_lim : α := ((atof (arg.getD (iarg + 1) "") : ℚ) : α)
    let iarg := iarg + 2
    let warnflag := true
    let parsed : Except String Bool :=
      if iarg < narg then
        if narg < iarg + 2 then
          .error "Illegal fix check/timestep/sph command, not enough arguments"
        else if arg.getD iarg "" ≠ "warn" then
          .error "Illegal fix check/timestep/sph command, use keyword \x27warn\x27"
        else if arg.getD (iarg + 1) "" = "no" then .ok false
        else .ok warnflag
      else .ok warnflag
    match parsed with
    | .error msg => .error msg
    | .ok warnflag =>
      .ok
        { nevery := nevery
          fraction_courant_lim := fraction_courant_lim
          warnflag := warnflag
          vector_flag := 1
          size_vector := 2
          global_freq := nevery
          extvector := 1
          fraction_courant := 0
          fraction_skin := 0 }

/-! ## The scan of `FixCheckTimestepSph` -/

/-- The whole object `FixCheckTimestepSph`: the members its constructor sets, the
members `vmax`, `mumax` and `courant_time` that the scan assigns, and what the
scan reads from the base class `FixSph` and from `cs->values`: `groupbit`,
`mass_type`, `kernel_cut`, `slComType`, the sound speeds per type, and the
inline helper `interpDist` of `fix_sph.h` (not under `src/`, hence a field). -/
structure FixCheckTimestepSphObject (α : Type) extends FixCheckTimestepSph α where
  vmax : α
  mumax : α
  courant_time : α
  groupbit : Int
  mass_type : Int
  kernel_cut : α
  slComType : Int → Int → α
  cs_values : Int → α
  interpDist : α → α → α

/-- What one process holds when it scans: the per-atom arrays `atom->x`,
`atom->v`, `atom->type`, `atom->mask` and `sl` (owned atoms first, ghost atoms
after them), `atom->nlocal`, the neighbour list (`ilist`, and `firstneigh[i]`
as the list of its `numneigh[i]` entries), and the indeterminate values that
the uninitialised locals `sli` and `j_maxmu` hold on entry. -/
structure SphAtoms (α : Type) where
  x : Int → Vec3 α
  v : Int → Vec3 α
  type : Int → Int
  mask : Int → Int
  nlocal : Nat
  ilist : Nat → Int
  firstneigh : Int → List Int
  sl : Int → α
  sli_entry : α
  j_maxmu_entry : Int

/-- The members and locals of `calc_courant_estims_eval` that live across the
iterations of its loop over the owned particles. -/
structure ScanLocals (α : Type) where
  vmax : α
  mumax : α
  courant_time : α
  sli : α
  j_maxmu : Int

/-- What `end_of_step` reads besides the object and the particles:
`neighbor->skin`, `update->dt`, `comm->me`, and whether the streams `screen`
and `logfile` are non-null. -/
structure StepEnv (α : Type) where
  skin : α
  dt : α
  me : Int
  screen : Bool
  logfile : Bool

/-- The stream a warning is printed to. -/
inductive Sink where
  | screen
  | logfile
  deriving DecidableEq, Repr

/-- The two warnings of `end_of_step` with the numbers they print: the skin
warning with `vmax*dt` and `0.1*skin`, the Courant warning with
`fraction_courant*100`. -/
inductive Advisory (α : Type) where
  | skin (sink : Sink) (travel : α) (tenth_skin : α)
  | courant (sink : Sink) (percent : α)
  deriving DecidableEq, Repr

/-- Whether the warning is the skin warning. -/
def Advisory.isSkin {α : Type} : Advisory α → Bool
  | .skin _ _ _ => true
  | .courant _ _ => false

/-- Whether the warning is the Courant warning. -/
def Advisory.isCourant {α : Type} : Advisory α → Bool
  | .skin _ _ _ => false
  | .courant _ _ => true

section Scan

variable {α : Type} [LinearOrderedField α]

/-- Line 51: `#define BIG 1000000.` -/
def BIG : α := 1000000

/-- Modelled from the spec: the macro `MIN(A,B)` of the LAMMPS headers (not under
`src/`), the smaller of its two arguments, `(A) < (B) ? (A) : (B)`. -/
def MIN (a b : α) : α := if a < b then a else b

/-- Modelled from the spec: `MPI_Max_Scalar(scal,world)` of `mpi_liggghts.h` (not
under `src/`), the collective that replaces `scal` on every process by the
global maximum of the values contributed by all processes; `others` are the
contributions of the other processes. -/
def MPI_Max_Scalar (scal : α) (others : List α) : α := others.foldl max scal

namespace FixCheckTimestepSph

/-- The speed `vmag = sqrt(v[i][0]*v[i][0]+v[i][1]*v[i][1]+v[i][2]*v[i][2])` of
line 221. -/
def vmag (sqrt : α → α) (a : SphAtoms α) (i : Int) : α :=
  sqrt ((a.v i).x * (a.v i).x + (a.v i).y * (a.v i).y + (a.v i).z * (a.v i).z)

/-- Lines 228-234: the common smoothing length `slCom` of the pair `(i,j)`; in
the per-type mode `itype = type[i]`, in the per-particle mode `sli = sl[i]`. -/
def slCom (MASSFLAG : Bool) (fix : FixCheckTimestepSphObject α) (a : SphAtoms α)
    (i j : Int) : α :=
  if MASSFLAG then fix.slComType (a.type i) (a.type j)
  else fix.interpDist (a.sl i) (a.sl j)

/-- Lines 238-241: `rsq`, the squared distance of `i` and `j`. -/
def rsq (a : SphAtoms α) (i j : Int) : α :=
  ((a.x i).x - (a.x j).x) * ((a.x i).x - (a.x j).x)
    + ((a.x i).y - (a.x j).y) * ((a.x i).y - (a.x j).y)
    + ((a.x i).z - (a.x j).z) * ((a.x i).z - (a.x j).z)

/-- Lines 245-249: `mu = slCom * (delvx*delx+delvy*dely+delvz*delz) / (rsq)`. -/
def mu (MASSFLAG : Bool) (fix : FixCheckTimestepSphObject α) (a : SphAtoms α)
    (i j : Int) : α :=
  slCom MASSFLAG fix a i j
      * (((a.v i).x - (a.v j).x) * ((a.x i).x - (a.x j).x)
        + ((a.v i).y - (a.v j).y) * ((a.x i).y - (a.x j).y)
        + ((a.v i).z - (a.v j).z) * ((a.x i).z - (a.x j).z))
    / rsq a i j

/-- Lines 225-256: one iteration of the neighbour loop of particle `i`, on the
pair `(mumax, j_maxmu)`. -/
def neighbourStep (MASSFLAG : Bool) (fix : FixCheckTimestepSphObject α) (a : SphAtoms α)
    (i : Int) (st : α × Int) (j : Int) : α × Int :=
  -- if (!(mask[j] & groupbit)) continue;
  if Int.land (a.mask j) fix.groupbit = 0 then st
  else
    let cut := slCom MASSFLAG fix a i j * fix.kernel_cut
    if rsq a i j < cut * cut then
      if mu MASSFLAG fix a i j > st.1 then (mu MASSFLAG fix a i j, j) else st
    else st

/-- Lines 224-257: the neighbour loop of particle `i`, started on the `mumax` and
`j_maxmu` left by the particles visited before `i`. -/
def neighbourLoop (MASSFLAG : Bool) (fix : FixCheckTimestepSphObject α) (a : SphAtoms α)
    (st : ScanLocals α) (i : Int) : α × Int :=
  (a.firstneigh i).foldl (neighbourStep MASSFLAG fix a i) (st.mumax, st.j_maxmu)

/-- Lines 215-219: `sli` when particle `i` is handled; in the per-type mode it is
not assigned and keeps the value it had. -/
def sli (MASSFLAG : Bool) (a : SphAtoms α) (st : ScanLocals α) (i : Int) : α :=
  if MASSFLAG then st.sli else a.sl i

/-- Lines 259-260: `cmean` and `courant_time_one = sli / (cmean + mumax)` for
particle `i`, after its neighbour loop. -/
def courant_time_one (MASSFLAG : Bool) (fix : FixCheckTimestepSphObject α) (a : SphAtoms α)
    (st : ScanLocals α) (i : Int) : α :=
  let nb := neighbourLoop MASSFLAG fix a st i
  let cmean := 1 / 2 * (fix.cs_values (a.type i - 1) + fix.cs_values (a.type nb.2 - 1))
  sli MASSFLAG a st i / (cmean + nb.1)

/-- Lines 207-261: one iteration of the loop over the owned particles. -/
def particleStep (sqrt : α → α) (MASSFLAG : Bool) (fix : FixCheckTimestepSphObject α)
    (a : SphAtoms α) (st : ScanLocals α) (i : Int) : ScanLocals α :=
  -- if (!(mask[i] & groupbit)) continue;
  if Int.land (a.mask i) fix.groupbit = 0 then st
  else
    { vmax := if vmag sqrt a i > st.vmax then vmag sqrt a i else st.vmax
      mumax := (neighbourLoop MASSFLAG fix a st i).1
      courant_time := MIN st.courant_time (courant_time_one MASSFLAG fix a st i)
      sli := sli MASSFLAG a st i
      j_maxmu := (neighbourLoop MASSFLAG fix a st i).2 }

/-- The particles the loop of line 206 visits: `ilist[0] .. ilist[nlocal-1]`. -/
def visited (a : SphAtoms α) : List Int := (List.range a.nlocal).map a.ilist

/-- Lines 196-263 of `calc_courant_estims_eval<MASSFLAG>`: the scan of one
process, before the reductions. -/
def scanLocal (sqrt : α → α) (MASSFLAG : Bool) (fix : FixCheckTimestepSphObject α)
    (a : SphAtoms α) : ScanLocals α :=
  (visited a).foldl (particleStep sqrt MASSFLAG fix a)
    { vmax := 0
      mumax := 0
      courant_time := BIG
      sli := a.sli_entry
      j_maxmu := a.j_maxmu_entry }

/-- The neighbour of `i` with the largest approach rate among the in-group
neighbours of `i` within the cut-off, with that rate, in the words of the
specification: only `i` and its own neighbours enter; `none` when `i` has no
such neighbour. -/
def specOwnMaximum (fix : FixCheckTimestepSphObject α) (a : SphAtoms α) (i : Int) :
    Option (α × Int) :=
  (a.firstneigh i).foldl
    (fun best j =>
      if Int.land (a.mask j) fix.groupbit = 0 then best
      else if rsq a i j
          < slCom false fix a i j * fix.kernel_cut * (slCom false fix a i j * fix.kernel_cut) then
        match best with
        | none => some (mu false fix a i j, j)
        | some b => if mu false fix a i j > b.1 then some (mu false fix a i j, j) else some b
      else best)
    none

/-- The candidate crossing time of particle `i` in the words of the
specification (per-particle smoothing lengths): `sl_i / (cmean_i + mu_i)` with
`mu_i` the largest approach rate over the own neighbours of `i` and `cmean_i` the
mean of the sound speeds of the types of `i` and of the neighbour attaining
`mu_i`. -/
def specCourantTimeOne (fix : FixCheckTimestepSphObject α) (a : SphAtoms α) (i : Int) :
    Option α :=
  (specOwnMaximum fix a i).map fun b =>
    a.sl i / (1 / 2 * (fix.cs_values (a.type i - 1) + fix.cs_values (a.type b.2 - 1)) + b.1)

/-- The member `calc_courant_estims_eval<MASSFLAG>()` on the process holding `a`,
`others` being what the other processes of `world` hold: the local scan, then
the two calls of `MPI_Max_Scalar` of lines 265-266. -/
def calc_courant_estims_eval (sqrt : α → α) (MASSFLAG : Bool)
    (fix : FixCheckTimestepSphObject α) (a : SphAtoms α) (others : List (SphAtoms α)) :
    FixCheckTimestepSphObject α :=
  let loc := scanLocal sqrt MASSFLAG fix a
  { fix with
    vmax := MPI_Max_Scalar loc.vmax (others.map fun o => (scanLocal sqrt MASSFLAG fix o).vmax)
    mumax := loc.mumax
    courant_time :=
      MPI_Max_Scalar loc.courant_time
        (others.map fun o => (scanLocal sqrt MASSFLAG fix o).courant_time) }

/-- The member `calc_courant_estims()`. -/
def calc_courant_estims (sqrt : α → α) (fix : FixCheckTimestepSphObject α) (a : SphAtoms α)
    (others : List (SphAtoms α)) : FixCheckTimestepSphObject α :=
  if fix.mass_type ≠ 0 then calc_courant_estims_eval sqrt true fix a others
  else calc_courant_estims_eval sqrt false fix a others

/-- The warnings that lines 128-149 print for the fractions just computed. -/
def advisories (fix : FixCheckTimestepSphObject α) (env : StepEnv α) : List (Advisory α) :=
  if fix.warnflag && decide (env.me = 0) then
    (if fix.fraction_skin > 1 / 10 then
        (if env.screen then
            [Advisory.skin Sink.screen (fix.vmax * env.dt) (1 / 10 * env.skin)]
          else [])
          ++ (if env.logfile then
            [Advisory.skin Sink.logfile (fix.vmax * env.dt) (1 / 10 * env.skin)]
          else [])
      else [])
      ++ (if fix.fraction_courant > fix.fraction_courant_lim then
        (if env.screen then [Advisory.courant Sink.screen (fix.fraction_courant * 100)]
          else [])
          ++ (if env.logfile then [Advisory.courant Sink.logfile (fix.fraction_courant * 100)]
          else [])
      else [])
  else []

/-- The member `end_of_step()`: returns the object and the warnings printed. -/
def end_of_step (sqrt : α → α) (fix : FixCheckTimestepSphObject α) (env : StepEnv α)
    (a : SphAtoms α) (others : List (SphAtoms α)) :
    FixCheckTimestepSphObject α × List (Advisory α) :=
  let fix := calc_courant_estims sqrt fix a others
  let skin := env.skin
  let dt := env.dt
  let fix : FixCheckTimestepSphObject α :=
    { fix with
      fraction_courant := dt / fix.courant_time
      fraction_skin := fix.vmax * dt / skin }
  (fix, advisories fix env)

/-- The member `compute_vector(n)`: returns the value and the object, which it
does not write. -/
def compute_vector (fix : FixCheckTimestepSphObject α) (n : Int) :
    α × FixCheckTimestepSphObject α :=
  if n = 0 then (fix.fraction_courant, fix)
  else if n = 1 then (fix.fraction_skin, fix)
  else (0, fix)

end FixCheckTimestepSph

end Scan

/-! ## `CreateBox` -/

/-- A `Region` as `CreateBox::command` reads it: `style`, `bboxflag`, the six
`extent_` members, and the members `xlo .. yz` that a `RegPrism` adds (read only
when `style` is `prism`). -/
structure Region (α : Type) where
  style : String
  bboxflag : Int
  extent_xlo : α
  extent_xhi : α
  extent_ylo : α
  extent_yhi : α
  extent_zlo : α
  extent_zhi : α
  xlo : α
  xhi : α
  ylo : α
  yhi : α
  zlo : α
  zhi : α
  xy : α
  xz : α
  yz : α

/-- The members of `Domain` that `CreateBox::command` reads or writes; `regions`
is the array of regions and `is_domain_wedge` says whether
`dynamic_cast<DomainWedge*>(domain)` is non-null. -/
structure Domain (α : Type) where
  box_exist : Int
  dimension : Int
  zperiodic : Int
  triclinic : Int
  boxlo : Vec3 α
  boxhi : Vec3 α
  xy : α
  xz : α
  yz : α
  regions : Int → Region α
  is_domain_wedge : Bool

/-- The members of `Atom` that `CreateBox::command` reads or writes. -/
structure Atom where
  molecular : Int
  angle_per_atom : Int
  dihedral_per_atom : Int
  improper_per_atom : Int
  nbonds : Int
  nangles : Int
  ndihedrals : Int
  nimpropers : Int
  ntypes : Int
  nangletypes : Int
  ndihedraltypes : Int
  nimpropertypes : Int
  deriving DecidableEq, Repr

/-- The member of `Update` that `CreateBox::command` writes. -/
structure Update where
  ntimestep : Int
  deriving DecidableEq, Repr

/-- What `CreateBox` reaches through `Pointers`: `domain`, `atom`, `update`. -/
structure CreateBoxState (α : Type) where
  domain : Domain α
  atom : Atom
  update : Update

/-- The routines that `CreateBox::command` calls and that are not under `src/`,
as parameters:
`find_region` is `domain->find_region` (the index of the region, `-1` if there is
none); `region_init` is `Region::init`, by the error it raises, if any;
`set_domain` is `DomainWedge::set_domain`, by the domain it leaves;
`inumeric` is `force->inumeric`, the integer value of a string or an error;
`finish` stands for `atom->allocate_type_arrays`, `domain->print_box`,
`domain->set_initial_box`, `domain->set_global_box`, `comm->set_proc_grid` and
`domain->set_local_box`, which write members that this embedding does not carry,
by the error they raise, if any. -/
structure CreateBoxEnv (α : Type) where
  find_region : String → Int
  region_init : Region α → Option String
  set_domain : Domain α → Region α → Domain α
  inumeric : String → Except String Int
  finish : CreateBoxState α → Option String

namespace CreateBox

variable {α : Type}

/-- Lines 63-93 of `CreateBox::command`: the box set from the region. -/
def setBox (env : CreateBoxEnv α) (domain : Domain α) (region : Region α) :
    Except String (Domain α) :=
  -- bool isBox = (strcmp(style,"prism") != 0) && (strcmp(style,"wedge") != 0);
  let isBox : Bool := decide (region.style ≠ "prism") && decide (region.style ≠ "wedge")
  if isBox then
    .ok
      { domain with
        triclinic := 0
        boxlo := ⟨region.extent_xlo, region.extent_ylo, region.extent_zlo⟩
        boxhi := ⟨region.extent_xhi, region.extent_yhi, region.extent_zhi⟩ }
  else if region.style = "wedge" then
    if !domain.is_domain_wedge then
      .error
        "Create_box with wedge region requires you to start with the \x27-domain wedge\x27 command line option"
    else .ok (env.set_domain domain region)
  else
    .ok
      { domain with
        triclinic := 1
        boxlo := ⟨region.xlo, region.ylo, region.zlo⟩
        boxhi := ⟨region.xhi, region.yhi, region.zhi⟩
        xy := region.xy
        xz := region.xz
        yz := region.yz }

/-- Lines 97-118 of `CreateBox::command`: the topology counters and the type
counts, `ntypes` being the value of `force->inumeric(FLERR,arg[0])`. -/
def setTypes (atom : Atom) (ntypes : Int) : Atom :=
  let atom : Atom :=
    if atom.molecular ≠ 0 then
      { atom with
        angle_per_atom := 0
        dihedral_per_atom := 0
        improper_per_atom := 0
        nbonds := 0
        nangles := 0
        ndihedrals := 0
        nimpropers := 0 }
    else atom
  { atom with
    ntypes := ntypes
    nangletypes := 0
    ndihedraltypes := 0
    nimpropertypes := 0 }

/-- The member `CreateBox::command(narg, arg)`, `narg` being the length of `arg`. -/
def command (env : CreateBoxEnv α) (s : CreateBoxState α) (arg : List String) :
    Except String (CreateBoxState α) :=
  let narg := arg.length
  if narg < 2 then .error "Illegal create_box command"
  else if s.domain.box_exist ≠ 0 then
    .error "Cannot create_box after simulation box is defined"
  else if s.domain.dimension = 2 ∧ s.domain.zperiodic = 0 then
    .error "Cannot run 2d simulation with nonperiodic Z dimension"
  else
    let domain : Domain α := { s.domain with box_exist := 1 }
    -- region check
    let iregion := env.find_region (arg.getD 1 "")
    if iregion = -1 then .error "Create_box region ID does not exist"
    else if (domain.regions iregion).bboxflag = 0 then
      .error "Create_box region does not support a bounding box"
    else
      match env.region_init (domain.regions iregion) with
      | some msg => .error msg
      | none =>
        match setBox env domain (domain.regions iregion) with
        | .error msg => .error msg
        | .ok domain =>
          match env.inumeric (arg.getD 0 "") with
          | .error msg => .error msg
          | .ok ntypes =>
            let done : CreateBoxState α :=
              { domain := domain
                atom := setTypes s.atom ntypes
                update := { ntimestep := 0 } }
            match env.finish done with
            | some msg => .error msg
            | none =>
              if narg = 2 then .ok done
              else if arg.getD 2 "" = "bonds" then
                .error
                  "Illegal create_box command, \x27bonds\x27 keyword moved to atom_style bond/gran command"
              else .ok done

/-- A run of the program through a list of `create_box` calls, each with its
arguments and the routines it meets; an error ends the run.  Returns how many of
the calls returned. -/
def commandSequence : CreateBoxState α → List (CreateBoxEnv α × List String) → Nat
  | _, [] => 0
  | s, call :: rest =>
    match command call.1 s call.2 with
    | .error _ => 0
    | .ok next => 1 + commandSequence next rest

end CreateBox

/-! ## Concrete contacts used to evaluate the model -/

section Examples

variable (α : Type) [LinearOrderedField α]

/-- A model with time step `1`, history offset `0`, friction coefficient `rmu`
for every pair of types, all spins zero except `omega[0] = (1,0,0)`, and
`TOUCH_ROLLING_MODEL = 8`. -/
def exModel (rmu : α) : RollingModel α where
  coeffRollFrict := fun _ _ => rmu
  history_offset := 0
  dt := 1
  omega := fun k => if k = 0 then ⟨1, 0, 0⟩ else ⟨0, 0, 0⟩
  TOUCH_ROLLING_MODEL := 8

/-- A particle-particle contact of particles `0` and `1` with normal `(0,0,1)`,
`kt = 1`, radii `radi`, `radj`, normal force `Fn`, and the history `(hx,0,0)`
in slots `0..2` of the buffer. -/
def exData (radi radj Fn hx : α) : CollisionData α where
  touch := some 0
  contact_history := fun k => if k = 0 then hx else 0
  is_wall := false
  wr1 := 0
  wr2 := 0
  wr3 := 0
  radi := radi
  radj := radj
  i := 0
  j := 1
  itype := 1
  jtype := 1
  en := ⟨0, 0, 1⟩
  kt := 1
  Fn := Fn

/-- A particle-wall contact of a particle of radius `1` with normal `(0,0,1)`,
`kt = 1`, `Fn = 10`, an all-zero history buffer and the wall-relative spin
`(0,0,3)`, which is parallel to the normal. -/
def exTorsion : CollisionData α where
  touch := some 0
  contact_history := fun _ => 0
  is_wall := true
  wr1 := 0
  wr2 := 0
  wr3 := 3
  radi := 1
  radj := 0
  i := 0
  j := 1
  itype := 1
  jtype := 1
  en := ⟨0, 0, 1⟩
  kt := 1
  Fn := 10

/-- An object with `groupbit = 1`, per-particle smoothing lengths
(`mass_type = 0`), `kernel_cut = 2`, sound speed `1` for every type,
`interpDist` the mean of its arguments, the given `warnflag` and Courant limit,
and `0` in the members the scan and `end_of_step` assign. -/
def exFix (warnflag : Bool) (lim : α) : FixCheckTimestepSphObject α where
  nevery := 10
  fraction_courant_lim := lim
  warnflag := warnflag
  vector_flag := 1
  size_vector := 2
  global_freq := 10
  extvector := 1
  fraction_courant := 0
  fraction_skin := 0
  vmax := 0
  mumax := 0
  courant_time := 0
  groupbit := 1
  mass_type := 0
  kernel_cut := 2
  slComType := fun _ _ => 1
  cs_values := fun _ => 1
  interpDist := fun a b => 1 / 2 * (a + b)

/-- Two atoms of type `1` in the group, each the only neighbour of the other:
atom `0` at `x0` with velocity `v0` and smoothing length `sl0`, atom `1` at `x1`
with `v1` and `sl1`; the first `nlocal` of them are owned. -/
def exTwo (x0 x1 v0 v1 : Vec3 α) (sl0 sl1 : α) (nlocal : Nat) : SphAtoms α where
  x := fun k => if k = 0 then x0 else x1
  v := fun k => if k = 0 then v0 else v1
  type := fun _ => 1
  mask := fun _ => 1
  nlocal := nlocal
  ilist := fun k => k
  firstneigh := fun k => if k = 0 then [1] else [0]
  sl := fun k => if k = 0 then sl0 else sl1
  sli_entry := 0
  j_maxmu_entry := 0

/-- The pair of particles `P` (at the origin, velocity `(-1,0,0)`, smoothing
length `1`) and `Q` (at `(1,0,0)`, at rest, smoothing length `2`), both owned by
one process. -/
def exPairWhole : SphAtoms α := exTwo α ⟨0, 0, 0⟩ ⟨1, 0, 0⟩ ⟨-1, 0, 0⟩ ⟨0, 0, 0⟩ 1 2 2

/-- The same pair on the process that owns `P` and holds `Q` as a ghost. -/
def exPairFirst : SphAtoms α := exTwo α ⟨0, 0, 0⟩ ⟨1, 0, 0⟩ ⟨-1, 0, 0⟩ ⟨0, 0, 0⟩ 1 2 1

/-- The same pair on the process that owns `Q` and holds `P` as a ghost. -/
def exPairSecond : SphAtoms α := exTwo α ⟨1, 0, 0⟩ ⟨0, 0, 0⟩ ⟨0, 0, 0⟩ ⟨-1, 0, 0⟩ 2 1 1

/-- Two owned particles `0` and `1` at the origin and two ghosts `2` and `3` at
`(1,0,0)`, all of type `1` and in the group; `0` has smoothing length `2`,
velocity `(-2,0,0)` and the single neighbour `2` (smoothing length `2`), `1` has
smoothing length `1`, velocity `(-1,0,0)` and the single neighbour `3`
(smoothing length `1`); the ghosts are at rest. -/
def exFour : SphAtoms α where
  x := fun k => if k = 2 ∨ k = 3 then ⟨1, 0, 0⟩ else ⟨0, 0, 0⟩
  v := fun k => if k = 0 then ⟨-2, 0, 0⟩ else if k = 1 then ⟨-1, 0, 0⟩ else ⟨0, 0, 0⟩
  type := fun _ => 1
  mask := fun _ => 1
  nlocal := 2
  ilist := fun k => k
  firstneigh := fun k => if k = 0 then [2] else if k = 1 then [3] else []
  sl := fun k => if k = 0 ∨ k = 2 then 2 else 1
  sli_entry := 0
  j_maxmu_entry := 0

/-- The pair of `exTwo` with both particles owned, `P` at the origin with
velocity `(-2,0,0)`, `Q` at `(1,0,0)` at rest, both of smoothing length `1`: the
largest speed is `2`. -/
def exPairFast : SphAtoms α := exTwo α ⟨0, 0, 0⟩ ⟨1, 0, 0⟩ ⟨-2, 0, 0⟩ ⟨0, 0, 0⟩ 1 1 2

/-- The object `exFix` switched to per-type smoothing lengths (`mass_type = 1`);
`slComType` is `1` for every pair of types. -/
def exFixPerType : FixCheckTimestepSphObject α := { exFix α true 1 with mass_type := 1 }

/-- The object `exFix` with sound speed `1` for type `1` (`cs->values[0]`) and `3`
for every other type. -/
def exFixTwoSpeeds : FixCheckTimestepSphObject α :=
  { exFix α true 1 with cs_values := fun k => if k = 0 then 1 else 3 }

/-- The pair `exPairWhole`, with the given indeterminate value in the local `sli`
on entry of the scan. -/
def exPairEntry (sli_entry : α) : SphAtoms α :=
  { exPairWhole α with sli_entry := sli_entry }

/-- One owned particle `0` of type `1` in the group, at rest at the origin, with
smoothing length `1` and an empty neighbour list; the atoms of every other index
are of type `2`; the local `j_maxmu` holds the given indeterminate value on entry
of the scan. -/
def exLone (j_maxmu_entry : Int) : SphAtoms α where
  x := fun _ => ⟨0, 0, 0⟩
  v := fun _ => ⟨0, 0, 0⟩
  type := fun k => if k = 0 then 1 else 2
  mask := fun _ => 1
  nlocal := 1
  ilist := fun k => k
  firstneigh := fun _ => []
  sl := fun _ => 1
  sli_entry := 0
  j_maxmu_entry := j_maxmu_entry

/-- A region of the given style with a bounding box, extents `(0,1)`, `(0,2)`,
`(0,3)` and prism members `(0,4)`, `(0,5)`, `(0,6)`, tilts `7`, `8`, `9`. -/
def exRegion (style : String) : Region α where
  style := style
  bboxflag := 1
  extent_xlo := 0
  extent_xhi := 1
  extent_ylo := 0
  extent_yhi := 2
  extent_zlo := 0
  extent_zhi := 3
  xlo := 0
  xhi := 4
  ylo := 0
  yhi := 5
  zlo := 0
  zhi := 6
  xy := 7
  xz := 8
  yz := 9

/-- A program state before any box exists: three dimensions, an unset box, the
region `exRegion style` at every index, an atom style that is not molecular, and
time step `100`. -/
def exBoxState (style : String) : CreateBoxState α where
  domain :=
    { box_exist := 0
      dimension := 3
      zperiodic := 1
      triclinic := 0
      boxlo := ⟨0, 0, 0⟩
      boxhi := ⟨0, 0, 0⟩
      xy := 0
      xz := 0
      yz := 0
      regions := fun _ => exRegion α style
      is_domain_wedge := false }
  atom :=
    { molecular := 0
      angle_per_atom := 0
      dihedral_per_atom := 0
      improper_per_atom := 0
      nbonds := 0
      nangles := 0
      ndihedrals := 0
      nimpropers := 0
      ntypes := 0
      nangletypes := 0
      ndihedraltypes := 0
      nimpropertypes := 0 }
  update := { ntimestep := 100 }

/-- Routines that find the region `reg` at index `0` and no other, raise no
error, read integers with `atoi`, and whose `set_domain` leaves the domain as it
is. -/
def exBoxEnv : CreateBoxEnv α where
  find_region := fun name => if name = "reg" then 0 else -1
  region_init := fun _ => none
  set_domain := fun d _ => d
  inumeric := fun str => .ok (atoi str)
  finish := fun _ => none

end Examples

/-! ## Auxiliary facts -/

section Lemmas

open RollingModel

theorem vectorMag3D_nonneg (v : Vec3 ℝ) : 0 ≤ vectorMag3D Real.sqrt v :=
  Real.sqrt_nonneg _

theorem vectorMag3D_scaled (v : Vec3 ℝ) (f : ℝ) (hf : 0 ≤ f) :
    vectorMag3D Real.sqrt ⟨v.x * f, v.y * f, v.z * f⟩ = f * vectorMag3D Real.sqrt v := by
  unfold vectorMag3D
  have h : v.x * f * (v.x * f) + v.y * f * (v.y * f) + v.z * f * (v.z * f)
      = f ^ 2 * (v.x * v.x + v.y * v.y + v.z * v.z) := by ring
  simp only [h]
  rw [Real.sqrt_mul (sq_nonneg f), Real.sqrt_sq hf]

theorem vectorMag3D_smul (v : Vec3 ℝ) (f : ℝ) (hf : 0 ≤ f) :
    vectorMag3D Real.sqrt (Vec3.smul f v) = f * vectorMag3D Real.sqrt v := by
  have h : Vec3.smul f v = ⟨v.x * f, v.y * f, v.z * f⟩ := by
    simp [Vec3.smul, mul_comm]
  rw [h, vectorMag3D_scaled v f hf]

theorem historySlice_storeHistory (h : Int → ℝ) (off : Int) (v : Vec3 ℝ) :
    historySlice (storeHistory h off v) off = v := by
  have h01 : off + 0 ≠ off + 1 := by omega
  have h02 : off + 0 ≠ off + 2 := by omega
  have h12 : off + 1 ≠ off + 2 := by omega
  cases v
  simp [historySlice, storeHistory, Function.update, h01, h02, h12]

theorem storeHistory_of_ne (h : Int → ℝ) (off : Int) (v : Vec3 ℝ) (k : Int)
    (h0 : k ≠ off + 0) (h1 : k ≠ off + 1) (h2 : k ≠ off + 2) :
    storeHistory h off v k = h k := by
  have h0' : k ≠ off := by simpa using h0
  simp [storeHistory, Function.update, h0', h1, h2]

/-- The limiter of `calcRollTorque`, clipped branch. -/
theorem calcRollTorque_clipped (m : RollingModel ℝ) (cdata : CollisionData ℝ)
    (reff wr1 wr2 wr3 : ℝ)
    (h : vectorMag3D Real.sqrt (r_torque_candidate m cdata reff wr1 wr2 wr3)
          > r_torque_max m cdata reff) :
    (calcRollTorque Real.sqrt m cdata reff wr1 wr2 wr3).1
      = Vec3.smul (r_torque_max m cdata reff
            / vectorMag3D Real.sqrt (r_torque_candidate m cdata reff wr1 wr2 wr3))
          (r_torque_candidate m cdata reff wr1 wr2 wr3) := by
  simp [calcRollTorque, h, Vec3.smul, mul_comm]

/-- The limiter of `calcRollTorque`, unclipped branch. -/
theorem calcRollTorque_unclipped (m : RollingModel ℝ) (cdata : CollisionData ℝ)
    (reff wr1 wr2 wr3 : ℝ)
    (h : vectorMag3D Real.sqrt (r_torque_candidate m cdata reff wr1 wr2 wr3)
          ≤ r_torque_max m cdata reff) :
    (calcRollTorque Real.sqrt m cdata reff wr1 wr2 wr3).1
      = r_torque_candidate m cdata reff wr1 wr2 wr3 := by
  simp [calcRollTorque, not_lt.mpr h]

/-- The history written by `calcRollTorque` is the torque it returns. -/
theorem calcRollTorque_history (m : RollingModel ℝ) (cdata : CollisionData ℝ)
    (reff wr1 wr2 wr3 : ℝ) :
    historySlice (calcRollTorque Real.sqrt m cdata reff wr1 wr2 wr3).2 m.history_offset
      = (calcRollTorque Real.sqrt m cdata reff wr1 wr2 wr3).1 := by
  simp only [calcRollTorque]
  exact historySlice_storeHistory _ _ _

/-- The candidate computed by lines 140-156 is the candidate of the
specification. -/
theorem r_torque_candidate_eq_spec (m : RollingModel ℝ) (cdata : CollisionData ℝ)
    (reff wr1 wr2 wr3 : ℝ) :
    r_torque_candidate m cdata reff wr1 wr2 wr3
      = specCandidate (historySlice cdata.contact_history m.history_offset) cdata.en
          ⟨wr1, wr2, wr3⟩ m.dt cdata.kt reff := by
  simp only [r_torque_candidate, specCandidate, vectorScalarMult3D, wr_t, wr_n, wr_dot_delta,
    kr, Vec3.add, Vec3.smul, Vec3.sub, Vec3.dot, Vec3.mk.injEq]
  refine ⟨?_, ?_, ?_⟩ <;> ring

/-- When the bound is nonnegative the returned torque is within the bound. -/
theorem calcRollTorque_mag_le_max (m : RollingModel ℝ) (cdata : CollisionData ℝ)
    (reff wr1 wr2 wr3 : ℝ) (hmax : 0 ≤ r_torque_max m cdata reff) :
    vectorMag3D Real.sqrt (calcRollTorque Real.sqrt m cdata reff wr1 wr2 wr3).1
      ≤ r_torque_max m cdata reff := by
  by_cases h : vectorMag3D Real.sqrt (r_torque_candidate m cdata reff wr1 wr2 wr3)
      > r_torque_max m cdata reff
  · have hpos : 0 < vectorMag3D Real.sqrt (r_torque_candidate m cdata reff wr1 wr2 wr3) :=
      lt_of_le_of_lt hmax h
    rw [calcRollTorque_clipped m cdata reff wr1 wr2 wr3 h,
      vectorMag3D_smul _ _ (div_nonneg hmax hpos.le), div_mul_cancel₀ _ hpos.ne']
  · rw [calcRollTorque_unclipped m cdata reff wr1 wr2 wr3 (not_lt.mp h)]
    exact not_lt.mp h

/-- In the clipped branch with a positive bound the returned torque has
magnitude exactly the bound. -/
theorem calcRollTorque_clipped_mag (m : RollingModel ℝ) (cdata : CollisionData ℝ)
    (reff wr1 wr2 wr3 : ℝ) (hmax : 0 < r_torque_max m cdata reff)
    (h : vectorMag3D Real.sqrt (r_torque_candidate m cdata reff wr1 wr2 wr3)
          > r_torque_max m cdata reff) :
    vectorMag3D Real.sqrt (calcRollTorque Real.sqrt m cdata reff wr1 wr2 wr3).1
      = r_torque_max m cdata reff := by
  have hpos : 0 < vectorMag3D Real.sqrt (r_torque_candidate m cdata reff wr1 wr2 wr3) :=
    lt_trans hmax h
  rw [calcRollTorque_clipped m cdata reff wr1 wr2 wr3 h,
    vectorMag3D_smul _ _ (div_nonneg hmax.le hpos.le), div_mul_cancel₀ _ hpos.ne']

/-- What `collision` does in the particle-wall branch. -/
theorem collision_wall (m : RollingModel ℝ) (cdata : CollisionData ℝ)
    (i_forces j_forces : ForceData ℝ) (hw : cdata.is_wall = true) :
    (collision Real.sqrt m cdata i_forces j_forces).cdata.contact_history
        = (calcRollTorque Real.sqrt m cdata cdata.radi cdata.wr1 cdata.wr2 cdata.wr3).2 ∧
      (collision Real.sqrt m cdata i_forces j_forces).i_forces.delta_torque
        = Vec3.sub i_forces.delta_torque
            (calcRollTorque Real.sqrt m cdata cdata.radi cdata.wr1 cdata.wr2 cdata.wr3).1 ∧
      (collision Real.sqrt m cdata i_forces j_forces).j_forces.delta_torque
        = Vec3.add j_forces.delta_torque
            (calcRollTorque Real.sqrt m cdata cdata.radi cdata.wr1 cdata.wr2 cdata.wr3).1 := by
  simp only [collision, hw, if_true]
  exact ⟨rfl, rfl, rfl⟩

/-- What `collision` does in the particle-particle branch. -/
theorem collision_particle (m : RollingModel ℝ) (cdata : CollisionData ℝ)
    (i_forces j_forces : ForceData ℝ) (hw : cdata.is_wall = false) :
    (collision Real.sqrt m cdata i_forces j_forces).cdata.contact_history
        = (calcRollTorque Real.sqrt m cdata
            (cdata.radi * cdata.radj / (cdata.radi + cdata.radj))
            (vectorSubtract3D (m.omega cdata.i) (m.omega cdata.j)).x
            (vectorSubtract3D (m.omega cdata.i) (m.omega cdata.j)).y
            (vectorSubtract3D (m.omega cdata.i) (m.omega cdata.j)).z).2 ∧
      (collision Real.sqrt m cdata i_forces j_forces).i_forces.delta_torque
        = Vec3.sub i_forces.delta_torque
            (calcRollTorque Real.sqrt m cdata
              (cdata.radi * cdata.radj / (cdata.radi + cdata.radj))
              (vectorSubtract3D (m.omega cdata.i) (m.omega cdata.j)).x
              (vectorSubtract3D (m.omega cdata.i) (m.omega cdata.j)).y
              (vectorSubtract3D (m.omega cdata.i) (m.omega cdata.j)).z).1 ∧
      (collision Real.sqrt m cdata i_forces j_forces).j_forces.delta_torque
        = Vec3.add j_forces.delta_torque
            (calcRollTorque Real.sqrt m cdata
              (cdata.radi * cdata.radj / (cdata.radi + cdata.radj))
              (vectorSubtract3D (m.omega cdata.i) (m.omega cdata.j)).x
              (vectorSubtract3D (m.omega cdata.i) (m.omega cdata.j)).y
              (vectorSubtract3D (m.omega cdata.i) (m.omega cdata.j)).z).1 := by
  simp only [collision, hw]
  exact ⟨rfl, rfl, rfl⟩

/-- In either branch `collision` applies one torque `r`: it is subtracted from
side `i`, added to side `j`, and it is what the history slice holds afterwards. -/
theorem collision_applies_one_torque (m : RollingModel ℝ) (cdata : CollisionData ℝ)
    (i_forces j_forces : ForceData ℝ) :
    ∃ r : Vec3 ℝ,
      (collision Real.sqrt m cdata i_forces j_forces).i_forces.delta_torque
          = Vec3.sub i_forces.delta_torque r ∧
        (collision Real.sqrt m cdata i_forces j_forces).j_forces.delta_torque
          = Vec3.add j_forces.delta_torque r ∧
        historySlice (collision Real.sqrt m cdata i_forces j_forces).cdata.contact_history
            m.history_offset = r := by
  cases hw : cdata.is_wall
  · obtain ⟨h1, h2, h3⟩ := collision_particle m cdata i_forces j_forces hw
    exact ⟨_, h2, h3, by rw [h1]; exact calcRollTorque_history _ _ _ _ _ _⟩
  · obtain ⟨h1, h2, h3⟩ := collision_wall m cdata i_forces j_forces hw
    exact ⟨_, h2, h3, by rw [h1]; exact calcRollTorque_history _ _ _ _ _ _⟩

end Lemmas

/-! ## The torque limiter (`calcRollTorque`) -/

section TorqueLimiter

open RollingModel

/-- C1, as amended: for all inputs whose yield bound `|Fn|*reff*rmu` is
nonnegative (as it is for `reff ≥ 0` and `rmu ≥ 0`), the torque that
`calcRollTorque` returns has Euclidean magnitude at most `|Fn|*reff*rmu`, and the
history slice it stores is that same torque. -/
theorem C1_torque_within_yield_bound (m : RollingModel ℝ) (cdata : CollisionData ℝ)
    (reff wr1 wr2 wr3 : ℝ)
    (hmax : 0 ≤ |cdata.Fn| * reff * m.coeffRollFrict cdata.itype cdata.jtype) :
    vectorMag3D Real.sqrt (calcRollTorque Real.sqrt m cdata reff wr1 wr2 wr3).1
        ≤ |cdata.Fn| * reff * m.coeffRollFrict cdata.itype cdata.jtype ∧
      vectorMag3D Real.sqrt
          (historySlice (calcRollTorque Real.sqrt m cdata reff wr1 wr2 wr3).2 m.history_offset)
        ≤ |cdata.Fn| * reff * m.coeffRollFrict cdata.itype cdata.jtype ∧
      historySlice (calcRollTorque Real.sqrt m cdata reff wr1 wr2 wr3).2 m.history_offset
        = (calcRollTorque Real.sqrt m cdata reff wr1 wr2 wr3).1 := by
  have h := calcRollTorque_mag_le_max m cdata reff wr1 wr2 wr3 hmax
  have hs := calcRollTorque_history m cdata reff wr1 wr2 wr3
  refine ⟨h, ?_, hs⟩
  rw [hs]
  exact h

/-- C1, witness: friction coefficient `1/10`, `Fn = 10`, `reff = 1/2`, stored
history `(2,0,0)` and no spin: the bound is `1/2 ≥ 0` and the result obeys it. -/
theorem C1_torque_within_yield_bound_witness :
    vectorMag3D Real.sqrt
        (calcRollTorque Real.sqrt (exModel ℝ (1 / 10)) (exData ℝ 1 1 10 2) (1 / 2) 0 0 0).1
      ≤ |(10 : ℝ)| * (1 / 2) * (1 / 10) :=
  (C1_torque_within_yield_bound (exModel ℝ (1 / 10)) (exData ℝ 1 1 10 2) (1 / 2) 0 0 0
    (by norm_num [exModel, exData])).1

/-- C1, counterexample to the claim as stated (all inputs): with friction
coefficient `-1`, `Fn = 1`, `reff = 1`, stored history `(1,0,0)` and no spin, the
bound is `-1`, the candidate `(1,0,0)` is scaled by `-1/1`, and the returned
torque `(-1,0,0)` has magnitude `1`, which exceeds the bound. -/
theorem C1_counterexample_negative_bound :
    (calcRollTorque Real.sqrt (exModel ℝ (-1)) (exData ℝ 1 1 1 1) 1 0 0 0).1 = ⟨-1, 0, 0⟩ ∧
      |(exData ℝ 1 1 1 1).Fn| * 1 * (exModel ℝ (-1)).coeffRollFrict 1 1 = -1 ∧
      ¬ (vectorMag3D Real.sqrt
            (calcRollTorque Real.sqrt (exModel ℝ (-1)) (exData ℝ 1 1 1 1) 1 0 0 0).1
          ≤ |(exData ℝ 1 1 1 1).Fn| * 1 * (exModel ℝ (-1)).coeffRollFrict 1 1) := by
  have hc : r_torque_candidate (exModel ℝ (-1)) (exData ℝ 1 1 1 1) 1 0 0 0 = ⟨1, 0, 0⟩ := by
    simp [r_torque_candidate, historySlice, vectorScalarMult3D, wr_t, wr_n, wr_dot_delta,
      exModel, exData]
  have hm : r_torque_max (exModel ℝ (-1)) (exData ℝ 1 1 1 1) 1 = -1 := by
    simp [r_torque_max, exModel, exData]
  have hv : (calcRollTorque Real.sqrt (exModel ℝ (-1)) (exData ℝ 1 1 1 1) 1 0 0 0).1
      = ⟨-1, 0, 0⟩ := by
    rw [calcRollTorque_clipped _ _ _ _ _ _ (by rw [hc, hm]; simp [vectorMag3D]), hc, hm]
    simp [vectorMag3D, Vec3.smul]
  refine ⟨hv, by simp [exModel, exData], ?_⟩
  rw [hv]
  simp [vectorMag3D, exModel, exData]

/-- C2: whenever the unclipped candidate `c = history + dt*kt*reff^2*wr_t` has
`|c| > torque_max` with `torque_max = |Fn|*reff*rmu > 0`, `calcRollTorque`
returns and stores `(torque_max/|c|)*c`, a positive multiple of `c` of magnitude
exactly `torque_max`; and for `reff = 0.5`, `Fn = 10`, `rmu = 0.1` a candidate
`2*d` with `|d| = 1` is returned and stored as `0.5*d`. -/
theorem C2_clipped_torque_is_rescaled_candidate :
    (∀ (m : RollingModel ℝ) (cdata : CollisionData ℝ) (reff wr1 wr2 wr3 : ℝ)
        (c : Vec3 ℝ) (torque_max : ℝ),
      c = specCandidate (historySlice cdata.contact_history m.history_offset) cdata.en
            ⟨wr1, wr2, wr3⟩ m.dt cdata.kt reff →
      torque_max = |cdata.Fn| * reff * m.coeffRollFrict cdata.itype cdata.jtype →
      0 < torque_max →
      vectorMag3D Real.sqrt c > torque_max →
        (calcRollTorque Real.sqrt m cdata reff wr1 wr2 wr3).1
            = Vec3.smul (torque_max / vectorMag3D Real.sqrt c) c ∧
          historySlice (calcRollTorque Real.sqrt m cdata reff wr1 wr2 wr3).2 m.history_offset
            = Vec3.smul (torque_max / vectorMag3D Real.sqrt c) c ∧
          0 < torque_max / vectorMag3D Real.sqrt c ∧
          vectorMag3D Real.sqrt (calcRollTorque Real.sqrt m cdata reff wr1 wr2 wr3).1
            = torque_max) ∧
    (∀ (m : RollingModel ℝ) (cdata : CollisionData ℝ) (wr1 wr2 wr3 : ℝ) (d : Vec3 ℝ),
      cdata.Fn = 10 →
      m.coeffRollFrict cdata.itype cdata.jtype = 1 / 10 →
      vectorMag3D Real.sqrt d = 1 →
      specCandidate (historySlice cdata.contact_history m.history_offset) cdata.en
          ⟨wr1, wr2, wr3⟩ m.dt cdata.kt (1 / 2) = Vec3.smul 2 d →
        (calcRollTorque Real.sqrt m cdata (1 / 2) wr1 wr2 wr3).1 = Vec3.smul (1 / 2) d ∧
          historySlice (calcRollTorque Real.sqrt m cdata (1 / 2) wr1 wr2 wr3).2
              m.history_offset
            = Vec3.smul (1 / 2) d) := by
  constructor
  · intro m cdata reff wr1 wr2 wr3 c torque_max hc ht hpos hgt
    rw [← r_torque_candidate_eq_spec] at hc
    have ht' : torque_max = r_torque_max m cdata reff := ht
    subst hc
    subst ht'
    have hmag : 0 < vectorMag3D Real.sqrt (r_torque_candidate m cdata reff wr1 wr2 wr3) :=
      lt_trans hpos hgt
    have hv := calcRollTorque_clipped m cdata reff wr1 wr2 wr3 hgt
    refine ⟨hv, ?_, div_pos hpos hmag, calcRollTorque_clipped_mag m cdata reff wr1 wr2 wr3 hpos hgt⟩
    rw [calcRollTorque_history, hv]
  · intro m cdata wr1 wr2 wr3 d hFn hmu hd hc
    rw [← r_torque_candidate_eq_spec] at hc
    have hmax : r_torque_max m cdata (1 / 2) = 1 / 2 := by
      simp only [r_torque_max, hFn, hmu]
      norm_num
    have hmag : vectorMag3D Real.sqrt (r_torque_candidate m cdata (1 / 2) wr1 wr2 wr3) = 2 := by
      rw [hc, vectorMag3D_smul d 2 (by norm_num), hd]
      norm_num
    have hv := calcRollTorque_clipped m cdata (1 / 2) wr1 wr2 wr3 (by rw [hmag, hmax]; norm_num)
    rw [hmag, hmax, hc] at hv
    have hv' : (calcRollTorque Real.sqrt m cdata (1 / 2) wr1 wr2 wr3).1 = Vec3.smul (1 / 2) d := by
      rw [hv]
      simp only [Vec3.smul, Vec3.mk.injEq]
      refine ⟨?_, ?_, ?_⟩ <;> ring
    refine ⟨hv', ?_⟩
    rw [calcRollTorque_history, hv']

/-- C2, witness: `reff = 1/2`, `Fn = 10`, `rmu = 1/10`, stored history `(2,0,0)`
and no spin give the candidate `2*(1,0,0)`; the result is `(1/2)*(1,0,0)`. -/
theorem C2_clipped_torque_is_rescaled_candidate_witness :
    (calcRollTorque Real.sqrt (exModel ℝ (1 / 10)) (exData ℝ 1 1 10 2) (1 / 2) 0 0 0).1
      = Vec3.smul (1 / 2) ⟨1, 0, 0⟩ :=
  (C2_clipped_torque_is_rescaled_candidate.2 (exModel ℝ (1 / 10)) (exData ℝ 1 1 10 2) 0 0 0
    ⟨1, 0, 0⟩ (by simp [exData]) (by simp [exModel]) (by simp [vectorMag3D])
    (by simp [specCandidate, historySlice, Vec3.add, Vec3.smul, Vec3.sub, Vec3.dot,
      exModel, exData])).1

/-- C3: whenever the candidate `c = history + dt*(kt*reff^2)*wr_t`, with
`wr_t = wr - (wr.en)*en`, has `|c| ≤ |Fn|*reff*rmu`, `calcRollTorque` returns and
stores exactly `c`; and for `reff = 1`, `Fn = 5`, `rmu = 0.5` a candidate of
magnitude `1` is returned and stored unchanged. -/
theorem C3_unclipped_candidate_is_kept :
    (∀ (m : RollingModel ℝ) (cdata : CollisionData ℝ) (reff wr1 wr2 wr3 : ℝ) (c : Vec3 ℝ),
      c = specCandidate (historySlice cdata.contact_history m.history_offset) cdata.en
            ⟨wr1, wr2, wr3⟩ m.dt cdata.kt reff →
      vectorMag3D Real.sqrt c
          ≤ |cdata.Fn| * reff * m.coeffRollFrict cdata.itype cdata.jtype →
        (calcRollTorque Real.sqrt m cdata reff wr1 wr2 wr3).1 = c ∧
          historySlice (calcRollTorque Real.sqrt m cdata reff wr1 wr2 wr3).2 m.history_offset
            = c) ∧
    (∀ (m : RollingModel ℝ) (cdata : CollisionData ℝ) (wr1 wr2 wr3 : ℝ) (c : Vec3 ℝ),
      cdata.Fn = 5 →
      m.coeffRollFrict cdata.itype cdata.jtype = 1 / 2 →
      c = specCandidate (historySlice cdata.contact_history m.history_offset) cdata.en
            ⟨wr1, wr2, wr3⟩ m.dt cdata.kt 1 →
      vectorMag3D Real.sqrt c = 1 →
        (calcRollTorque Real.sqrt m cdata 1 wr1 wr2 wr3).1 = c ∧
          historySlice (calcRollTorque Real.sqrt m cdata 1 wr1 wr2 wr3).2 m.history_offset
            = c) := by
  have key : ∀ (m : RollingModel ℝ) (cdata : CollisionData ℝ) (reff wr1 wr2 wr3 : ℝ),
      vectorMag3D Real.sqrt (r_torque_candidate m cdata reff wr1 wr2 wr3)
          ≤ r_torque_max m cdata reff →
        (calcRollTorque Real.sqrt m cdata reff wr1 wr2 wr3).1
            = r_torque_candidate m cdata reff wr1 wr2 wr3 ∧
          historySlice (calcRollTorque Real.sqrt m cdata reff wr1 wr2 wr3).2 m.history_offset
            = r_torque_candidate m cdata reff wr1 wr2 wr3 := by
    intro m cdata reff wr1 wr2 wr3 hle
    have hv := calcRollTorque_unclipped m cdata reff wr1 wr2 wr3 hle
    refine ⟨hv, ?_⟩
    rw [calcRollTorque_history, hv]
  constructor
  · intro m cdata reff wr1 wr2 wr3 c hc hle
    rw [← r_torque_candidate_eq_spec] at hc
    subst hc
    exact key m cdata reff wr1 wr2 wr3 hle
  · intro m cdata wr1 wr2 wr3 c hFn hmu hc hmag
    rw [← r_torque_candidate_eq_spec] at hc
    subst hc
    apply key
    rw [hmag]
    simp only [r_torque_max, hFn, hmu]
    norm_num

/-- C3, witness: `reff = 1`, `Fn = 5`, `rmu = 1/2` (bound `5/2`), stored history
`(1,0,0)` and no spin: the candidate `(1,0,0)` is returned unchanged. -/
theorem C3_unclipped_candidate_is_kept_witness :
    (calcRollTorque Real.sqrt (exModel ℝ (1 / 2)) (exData ℝ 1 1 5 1) 1 0 0 0).1 = ⟨1, 0, 0⟩ :=
  (C3_unclipped_candidate_is_kept.2 (exModel ℝ (1 / 2)) (exData ℝ 1 1 5 1) 0 0 0 ⟨1, 0, 0⟩
    (by simp [exData]) (by simp [exModel])
    (by simp [specCandidate, historySlice, Vec3.add, Vec3.smul, Vec3.sub, Vec3.dot,
      exModel, exData])
    (by simp [vectorMag3D])).1

end TorqueLimiter

/-! ## `collision` and `noCollision` -/

section Collision

open RollingModel

/-- C5: after every call of `collision` the three history scalars at
`history_offset .. history_offset+2` are the torque this call added to
`j_forces.delta_torque` and subtracted from `i_forces.delta_torque`; that torque
is the output of the limiter `calcRollTorque` for the branch taken, so in a
clipped call with a candidate of nonzero magnitude the stored state differs from
the unclipped candidate. -/
theorem C5_history_is_applied_torque (m : RollingModel ℝ) (cdata : CollisionData ℝ)
    (i_forces j_forces : ForceData ℝ) :
    historySlice (collision Real.sqrt m cdata i_forces j_forces).cdata.contact_history
          m.history_offset
        = Vec3.sub (collision Real.sqrt m cdata i_forces j_forces).j_forces.delta_torque
            j_forces.delta_torque ∧
      historySlice (collision Real.sqrt m cdata i_forces j_forces).cdata.contact_history
          m.history_offset
        = Vec3.sub i_forces.delta_torque
            (collision Real.sqrt m cdata i_forces j_forces).i_forces.delta_torque ∧
      (∀ reff wr1 wr2 wr3 : ℝ,
        vectorMag3D Real.sqrt (r_torque_candidate m cdata reff wr1 wr2 wr3)
            > r_torque_max m cdata reff →
        vectorMag3D Real.sqrt (r_torque_candidate m cdata reff wr1 wr2 wr3) ≠ 0 →
          historySlice (calcRollTorque Real.sqrt m cdata reff wr1 wr2 wr3).2 m.history_offset
              = (calcRollTorque Real.sqrt m cdata reff wr1 wr2 wr3).1 ∧
            historySlice (calcRollTorque Real.sqrt m cdata reff wr1 wr2 wr3).2 m.history_offset
              ≠ r_torque_candidate m cdata reff wr1 wr2 wr3) := by
  obtain ⟨r, hi, hj, hh⟩ := collision_applies_one_torque m cdata i_forces j_forces
  refine ⟨?_, ?_, ?_⟩
  · rw [hh, hj]
    simp [Vec3.sub, Vec3.add]
  · rw [hh, hi]
    simp [Vec3.sub]
  · intro reff wr1 wr2 wr3 hgt hne
    refine ⟨calcRollTorque_history m cdata reff wr1 wr2 wr3, ?_⟩
    rw [calcRollTorque_history]
    intro heq
    have hmag := congrArg (vectorMag3D Real.sqrt) heq
    rw [calcRollTorque_clipped m cdata reff wr1 wr2 wr3 hgt] at hmag
    have hpos : 0 < vectorMag3D Real.sqrt (r_torque_candidate m cdata reff wr1 wr2 wr3) :=
      lt_of_le_of_ne (vectorMag3D_nonneg _) (Ne.symm hne)
    by_cases hmax : 0 ≤ r_torque_max m cdata reff
    · rw [vectorMag3D_smul _ _ (div_nonneg hmax hpos.le), div_mul_cancel₀ _ hpos.ne'] at hmag
      exact absurd hmag (ne_of_lt hgt)
    · have hneg : r_torque_max m cdata reff < 0 := not_le.mp hmax
      have hx : (calcRollTorque Real.sqrt m cdata reff wr1 wr2 wr3).1
          = r_torque_candidate m cdata reff wr1 wr2 wr3 := heq
      rw [calcRollTorque_clipped m cdata reff wr1 wr2 wr3 hgt] at hx
      have hf : r_torque_max m cdata reff
          / vectorMag3D Real.sqrt (r_torque_candidate m cdata reff wr1 wr2 wr3) < 0 :=
        div_neg_of_neg_of_pos hneg hpos
      have hsq : (r_torque_candidate m cdata reff wr1 wr2 wr3).x
            * (r_torque_candidate m cdata reff wr1 wr2 wr3).x
          + (r_torque_candidate m cdata reff wr1 wr2 wr3).y
            * (r_torque_candidate m cdata reff wr1 wr2 wr3).y
          + (r_torque_candidate m cdata reff wr1 wr2 wr3).z
            * (r_torque_candidate m cdata reff wr1 wr2 wr3).z ≠ 0 := by
        intro h0
        apply hne
        simp [vectorMag3D, h0]
      generalize r_torque_candidate m cdata reff wr1 wr2 wr3 = c at hx hf hsq
      generalize r_torque_max m cdata reff / vectorMag3D Real.sqrt c = f at hx hf
      simp only [Vec3.smul] at hx
      have hxx : f * c.x = c.x := congrArg Vec3.x hx
      have hxy : f * c.y = c.y := congrArg Vec3.y hx
      have hxz : f * c.z = c.z := congrArg Vec3.z hx
      have h1 : f - 1 ≠ 0 := by linarith
      have zx : c.x = 0 := by
        have : (f - 1) * c.x = 0 := by linarith
        exact (mul_eq_zero.mp this).resolve_left h1
      have zy : c.y = 0 := by
        have : (f - 1) * c.y = 0 := by linarith
        exact (mul_eq_zero.mp this).resolve_left h1
      have zz : c.z = 0 := by
        have : (f - 1) * c.z = 0 := by linarith
        exact (mul_eq_zero.mp this).resolve_left h1
      apply hsq
      simp [zx, zy, zz]

/-- C5, witness: a clipped call (`reff = 1/2`, `Fn = 10`, `rmu = 1/10`, history
`(2,0,0)`, no spin): the stored slice is the returned torque and is not the
candidate `(2,0,0)`. -/
theorem C5_history_is_applied_torque_witness :
    historySlice
        (calcRollTorque Real.sqrt (exModel ℝ (1 / 10)) (exData ℝ 1 1 10 2) (1 / 2) 0 0 0).2
        (exModel ℝ (1 / 10)).history_offset
      ≠ r_torque_candidate (exModel ℝ (1 / 10)) (exData ℝ 1 1 10 2) (1 / 2) 0 0 0 := by
  have hc : r_torque_candidate (exModel ℝ (1 / 10)) (exData ℝ 1 1 10 2) (1 / 2) 0 0 0
      = ⟨2, 0, 0⟩ := by
    simp [r_torque_candidate, historySlice, vectorScalarMult3D, wr_t, wr_n, wr_dot_delta,
      exModel, exData]
  have hm : vectorMag3D Real.sqrt (⟨2, 0, 0⟩ : Vec3 ℝ) = 2 := by
    simp [vectorMag3D]
  have hmax : r_torque_max (exModel ℝ (1 / 10)) (exData ℝ 1 1 10 2) (1 / 2) = 1 / 2 := by
    simp only [r_torque_max, exModel, exData]
    norm_num
  exact ((C5_history_is_applied_torque (exModel ℝ (1 / 10)) (exData ℝ 1 1 10 2)
    ⟨⟨0, 0, 0⟩, ⟨0, 0, 0⟩⟩ ⟨⟨0, 0, 0⟩, ⟨0, 0, 0⟩⟩).2.2 (1 / 2) 0 0 0
    (by rw [hc, hm, hmax]; norm_num) (by rw [hc, hm]; norm_num)).2

/-- C6: for every contact state, after `noCollision` the three history scalars at
`history_offset .. history_offset+2` are exactly `0`; a non-null touch marker
`t` becomes `t & ~TOUCH_ROLLING_MODEL`, in which every bit of
`TOUCH_ROLLING_MODEL` is clear (a null marker stays null); and both force
accumulators are unchanged. -/
theorem C6_noCollision_resets (m : RollingModel ℝ) (cdata : ContactData ℝ)
    (i_forces j_forces : ForceData ℝ) :
    (noCollision m cdata i_forces j_forces).cdata.contact_history (m.history_offset + 0) = 0 ∧
      (noCollision m cdata i_forces j_forces).cdata.contact_history (m.history_offset + 1) = 0 ∧
      (noCollision m cdata i_forces j_forces).cdata.contact_history (m.history_offset + 2) = 0 ∧
      (∀ t : Int, cdata.touch = some t →
        ∃ t' : Int, (noCollision m cdata i_forces j_forces).cdata.touch = some t' ∧
          t' = Int.land t (Int.lnot m.TOUCH_ROLLING_MODEL) ∧
          ∀ k : Nat, Int.testBit m.TOUCH_ROLLING_MODEL k = true → Int.testBit t' k = false) ∧
      (cdata.touch = none → (noCollision m cdata i_forces j_forces).cdata.touch = none) ∧
      (noCollision m cdata i_forces j_forces).i_forces = i_forces ∧
      (noCollision m cdata i_forces j_forces).j_forces = j_forces := by
  have hz : historySlice (noCollision m cdata i_forces j_forces).cdata.contact_history
      m.history_offset = ⟨0, 0, 0⟩ := historySlice_storeHistory _ _ _
  simp only [historySlice, Vec3.mk.injEq] at hz
  refine ⟨hz.1, hz.2.1, hz.2.2, ?_, ?_, rfl, rfl⟩
  · intro t ht
    refine ⟨Int.land t (Int.lnot m.TOUCH_ROLLING_MODEL), ?_, rfl, ?_⟩
    · simp [noCollision, ht]
    · intro k hk
      rw [Int.testBit_land, Int.testBit_lnot, hk]
      simp
  · intro ht
    simp [noCollision, ht]

/-- C6, witness: with `TOUCH_ROLLING_MODEL = 8`, marker `15` and history `(2,0,0)`,
`noCollision` leaves the marker `7`. -/
theorem C6_noCollision_resets_witness :
    ∃ t' : Int,
      (noCollision (exModel ℝ 1) { touch := some 15, contact_history := fun _ => 2 }
          ⟨⟨0, 0, 0⟩, ⟨0, 0, 0⟩⟩ ⟨⟨0, 0, 0⟩, ⟨0, 0, 0⟩⟩).cdata.touch = some t' ∧
        t' = Int.land 15 (Int.lnot (exModel ℝ 1).TOUCH_ROLLING_MODEL) ∧
        ∀ k : Nat, Int.testBit (exModel ℝ 1).TOUCH_ROLLING_MODEL k = true →
          Int.testBit t' k = false :=
  (C6_noCollision_resets (exModel ℝ 1) { touch := some 15, contact_history := fun _ => 2 }
    ⟨⟨0, 0, 0⟩, ⟨0, 0, 0⟩⟩ ⟨⟨0, 0, 0⟩, ⟨0, 0, 0⟩⟩).2.2.2.1 15 rfl

/-- C7, as amended: for particle-particle contact `collision` calls the torque
law with `reff = radi*radj/(radi+radj)`, which is half the harmonic mean
`2*radi*radj/(radi+radj)` of the two radii, and with the spin difference
`omega[i] - omega[j]`; for particle-wall contact it calls it with `reff = radi`
and the spin `(wr1,wr2,wr3)`; the rolling stiffness is `kr = kt*reff^2`, and it
enters the candidate as `history + dt*(kt*reff^2)*wr_t`. -/
theorem C7_effective_radius (m : RollingModel ℝ) (cdata : CollisionData ℝ)
    (i_forces j_forces : ForceData ℝ) :
    (cdata.is_wall = false →
      ∀ reff : ℝ, reff = cdata.radi * cdata.radj / (cdata.radi + cdata.radj) →
        reff = 1 / 2 * (2 * cdata.radi * cdata.radj / (cdata.radi + cdata.radj)) ∧
          (collision Real.sqrt m cdata i_forces j_forces).cdata.contact_history
            = (calcRollTorque Real.sqrt m cdata reff
                ((m.omega cdata.i).x - (m.omega cdata.j).x)
                ((m.omega cdata.i).y - (m.omega cdata.j).y)
                ((m.omega cdata.i).z - (m.omega cdata.j).z)).2 ∧
          (collision Real.sqrt m cdata i_forces j_forces).j_forces.delta_torque
            = Vec3.add j_forces.delta_torque
                (calcRollTorque Real.sqrt m cdata reff
                  ((m.omega cdata.i).x - (m.omega cdata.j).x)
                  ((m.omega cdata.i).y - (m.omega cdata.j).y)
                  ((m.omega cdata.i).z - (m.omega cdata.j).z)).1) ∧
      (cdata.is_wall = true →
        (collision Real.sqrt m cdata i_forces j_forces).cdata.contact_history
            = (calcRollTorque Real.sqrt m cdata cdata.radi cdata.wr1 cdata.wr2 cdata.wr3).2 ∧
          (collision Real.sqrt m cdata i_forces j_forces).j_forces.delta_torque
            = Vec3.add j_forces.delta_torque
                (calcRollTorque Real.sqrt m cdata cdata.radi cdata.wr1 cdata.wr2
                  cdata.wr3).1) ∧
      (∀ reff wr1 wr2 wr3 : ℝ,
        kr cdata.kt reff = cdata.kt * reff ^ 2 ∧
          r_torque_candidate m cdata reff wr1 wr2 wr3
            = Vec3.add (historySlice cdata.contact_history m.history_offset)
                (Vec3.smul (m.dt * (cdata.kt * reff ^ 2)) (wr_t cdata.en wr1 wr2 wr3))) := by
  refine ⟨?_, ?_, ?_⟩
  · intro hw reff hreff
    obtain ⟨h1, -, h3⟩ := collision_particle m cdata i_forces j_forces hw
    subst hreff
    refine ⟨by ring, h1, h3⟩
  · intro hw
    obtain ⟨h1, -, h3⟩ := collision_wall m cdata i_forces j_forces hw
    exact ⟨h1, h3⟩
  · intro reff wr1 wr2 wr3
    refine ⟨by simp only [kr]; ring, ?_⟩
    simp only [r_torque_candidate, vectorScalarMult3D, kr, Vec3.add, Vec3.smul,
      Vec3.mk.injEq]
    refine ⟨?_, ?_, ?_⟩ <;> ring

/-- C7, witness: two particles of radius `1` (`reff = 1/2`), `kt = 1`, `dt = 1`,
spin difference `(1,0,0)`, `Fn = 10`, `rmu = 1`, empty history: the torque
added to side `j` is the one the torque law returns for `reff = 1/2`. -/
theorem C7_effective_radius_witness :
    (collision Real.sqrt (exModel ℝ 1) (exData ℝ 1 1 10 0) ⟨⟨0, 0, 0⟩, ⟨0, 0, 0⟩⟩
        ⟨⟨0, 0, 0⟩, ⟨0, 0, 0⟩⟩).j_forces.delta_torque
      = Vec3.add ⟨0, 0, 0⟩
          (calcRollTorque Real.sqrt (exModel ℝ 1) (exData ℝ 1 1 10 0) (1 / 2)
            (((exModel ℝ 1).omega 0).x - ((exModel ℝ 1).omega 1).x)
            (((exModel ℝ 1).omega 0).y - ((exModel ℝ 1).omega 1).y)
            (((exModel ℝ 1).omega 0).z - ((exModel ℝ 1).omega 1).z)).1 :=
  ((C7_effective_radius (exModel ℝ 1) (exData ℝ 1 1 10 0) ⟨⟨0, 0, 0⟩, ⟨0, 0, 0⟩⟩
    ⟨⟨0, 0, 0⟩, ⟨0, 0, 0⟩⟩).1 rfl (1 / 2) (by norm_num [exData])).2.2

/-- C7, counterexample to the claim as stated (harmonic mean): for two particles
of radius `1` the harmonic mean `2*1*1/(1+1)` is `1`, for which the torque law
would return `(1,0,0)`; `collision` adds `(1/4,0,0)` to side `j`, the value the
torque law returns for `reff = 1*1/(1+1) = 1/2`. -/
theorem C7_counterexample_harmonic_mean :
    (collision Real.sqrt (exModel ℝ 1) (exData ℝ 1 1 10 0) ⟨⟨0, 0, 0⟩, ⟨0, 0, 0⟩⟩
        ⟨⟨0, 0, 0⟩, ⟨0, 0, 0⟩⟩).j_forces.delta_torque = ⟨1 / 4, 0, 0⟩ ∧
      (calcRollTorque Real.sqrt (exModel ℝ 1) (exData ℝ 1 1 10 0) (2 * 1 * 1 / (1 + 1))
        1 0 0).1 = ⟨1, 0, 0⟩ ∧
      (collision Real.sqrt (exModel ℝ 1) (exData ℝ 1 1 10 0) ⟨⟨0, 0, 0⟩, ⟨0, 0, 0⟩⟩
        ⟨⟨0, 0, 0⟩, ⟨0, 0, 0⟩⟩).j_forces.delta_torque
        ≠ Vec3.add ⟨0, 0, 0⟩
            (calcRollTorque Real.sqrt (exModel ℝ 1) (exData ℝ 1 1 10 0) (2 * 1 * 1 / (1 + 1))
              1 0 0).1 := by
  have hj : (collision Real.sqrt (exModel ℝ 1) (exData ℝ 1 1 10 0) ⟨⟨0, 0, 0⟩, ⟨0, 0, 0⟩⟩
      ⟨⟨0, 0, 0⟩, ⟨0, 0, 0⟩⟩).j_forces.delta_torque = ⟨1 / 4, 0, 0⟩ := by
    rw [(collision_particle (exModel ℝ 1) (exData ℝ 1 1 10 0) ⟨⟨0, 0, 0⟩, ⟨0, 0, 0⟩⟩
      ⟨⟨0, 0, 0⟩, ⟨0, 0, 0⟩⟩ rfl).2.2]
    have hc : r_torque_candidate (exModel ℝ 1) (exData ℝ 1 1 10 0)
        ((exData ℝ 1 1 10 0).radi * (exData ℝ 1 1 10 0).radj
          / ((exData ℝ 1 1 10 0).radi + (exData ℝ 1 1 10 0).radj))
        (vectorSubtract3D ((exModel ℝ 1).omega (exData ℝ 1 1 10 0).i)
          ((exModel ℝ 1).omega (exData ℝ 1 1 10 0).j)).x
        (vectorSubtract3D ((exModel ℝ 1).omega (exData ℝ 1 1 10 0).i)
          ((exModel ℝ 1).omega (exData ℝ 1 1 10 0).j)).y
        (vectorSubtract3D ((exModel ℝ 1).omega (exData ℝ 1 1 10 0).i)
          ((exModel ℝ 1).omega (exData ℝ 1 1 10 0).j)).z = ⟨1 / 4, 0, 0⟩ := by
      simp [r_torque_candidate, historySlice, vectorScalarMult3D, vectorSubtract3D, wr_t, wr_n,
        wr_dot_delta, kr, exModel, exData]
      norm_num
    rw [calcRollTorque_unclipped _ _ _ _ _ _ (by
      rw [hc]
      simp only [vectorMag3D, r_torque_max, exModel, exData]
      rw [Real.sqrt_le_left (by norm_num)]
      norm_num), hc]
    simp [Vec3.add]
  have hh : (calcRollTorque Real.sqrt (exModel ℝ 1) (exData ℝ 1 1 10 0) (2 * 1 * 1 / (1 + 1))
      1 0 0).1 = ⟨1, 0, 0⟩ := by
    have hc : r_torque_candidate (exModel ℝ 1) (exData ℝ 1 1 10 0) (2 * 1 * 1 / (1 + 1)) 1 0 0
        = ⟨1, 0, 0⟩ := by
      simp [r_torque_candidate, historySlice, vectorScalarMult3D, wr_t, wr_n,
        wr_dot_delta, kr, exModel, exData]
      norm_num
    rw [calcRollTorque_unclipped _ _ _ _ _ _ (by
      rw [hc]
      simp only [vectorMag3D, r_torque_max, exModel, exData]
      norm_num), hc]
  refine ⟨hj, hh, ?_⟩
  rw [hj, hh]
  simp [Vec3.add]

end Collision

/-! ## The arguments of `fix check/timestep/sph` -/

section FixArguments

/-- C8: after the three leading fix arguments, `n f` gives `nevery = atoi(n)`,
`warnflag = true` and, for `f` in decimal notation with a value in the range of
a `double`, `fraction_courant_lim = atof(f)`; `n f warn no` gives the same with
`warnflag = false`; `n f warn yes` the same with `warnflag = true`; one
positional argument or none is an error; and `10 0.1` gives `nevery = 10`, limit
`0.1`, warnings enabled. -/
theorem C8_constructor_arguments (a0 a1 a2 : String) :
    (∀ n f : String,
      (∃ fix : FixCheckTimestepSph ℝ,
        FixCheckTimestepSph.FixCheckTimestepSph [a0, a1, a2, n, f] = .ok fix ∧
          fix.nevery = atoi n ∧ fix.warnflag = true ∧
          (atofDecimal f = true → |((atof f : ℚ) : ℝ)| ≤ 10 ^ 308 →
            fix.fraction_courant_lim = ((atof f : ℚ) : ℝ))) ∧
      (∃ fix : FixCheckTimestepSph ℝ,
        FixCheckTimestepSph.FixCheckTimestepSph [a0, a1, a2, n, f, "warn", "no"] = .ok fix ∧
          fix.nevery = atoi n ∧ fix.warnflag = false ∧
          (atofDecimal f = true → |((atof f : ℚ) : ℝ)| ≤ 10 ^ 308 →
            fix.fraction_courant_lim = ((atof f : ℚ) : ℝ))) ∧
      (∃ fix : FixCheckTimestepSph ℝ,
        FixCheckTimestepSph.FixCheckTimestepSph [a0, a1, a2, n, f, "warn", "yes"] = .ok fix ∧
          fix.nevery = atoi n ∧ fix.warnflag = true ∧
          (atofDecimal f = true → |((atof f : ℚ) : ℝ)| ≤ 10 ^ 308 →
            fix.fraction_courant_lim = ((atof f : ℚ) : ℝ)))) ∧
      (∀ n : String, ∃ msg : String,
        (FixCheckTimestepSph.FixCheckTimestepSph [a0, a1, a2, n] :
          Except String (FixCheckTimestepSph ℝ)) = .error msg) ∧
      (∃ msg : String,
        (FixCheckTimestepSph.FixCheckTimestepSph [a0, a1, a2] :
          Except String (FixCheckTimestepSph ℝ)) = .error msg) ∧
      (∃ msg : String,
        (FixCheckTimestepSph.FixCheckTimestepSph [a0, a1, a2, "10"] :
          Except String (FixCheckTimestepSph ℝ)) = .error msg) ∧
      (∃ fix : FixCheckTimestepSph ℝ,
        FixCheckTimestepSph.FixCheckTimestepSph [a0, a1, a2, "10", "0.1"] = .ok fix ∧
          fix.nevery = 10 ∧ fix.fraction_courant_lim = 1 / 10 ∧ fix.warnflag = true) := by
  refine ⟨fun n f => ⟨⟨_, rfl, rfl, rfl, fun _ _ => rfl⟩, ⟨_, rfl, rfl, rfl, fun _ _ => rfl⟩,
      ⟨_, rfl, rfl, rfl, fun _ _ => rfl⟩⟩,
    fun n => ⟨_, rfl⟩, ⟨_, rfl⟩, ⟨_, rfl⟩, ⟨_, rfl, ?_, ?_, rfl⟩⟩
  · show atoi "10" = 10
    decide
  · show ((atof "0.1" : ℚ) : ℝ) = 1 / 10
    have hp : atofParts "0.1" = (false, 1, -1) := by decide
    have hq : atof "0.1" = 1 / 10 := by
      simp only [atof, hp, scale10]
      norm_num
    rw [hq]
    norm_num

/-- C8, witness: `fix 1 all check/timestep/sph 25 0.5 warn no`, where `0.5` is in
decimal notation and in range: `nevery = 25`, limit `1/2`, warnings off. -/
theorem C8_constructor_arguments_witness :
    ∃ fix : FixCheckTimestepSph ℝ,
      FixCheckTimestepSph.FixCheckTimestepSph
          ["1", "all", "check/timestep/sph", "25", "0.5", "warn", "no"] = .ok fix ∧
        fix.nevery = 25 ∧ fix.warnflag = false ∧ fix.fraction_courant_lim = 1 / 2 := by
  have hp : atofParts "0.5" = (false, 5, -1) := by decide
  have hq : atof "0.5" = 1 / 2 := by
    simp only [atof, hp, scale10]
    norm_num
  have hn : atoi "25" = 25 := by decide
  obtain ⟨fix, hfix, hnev, hwarn, hlim⟩ :=
    ((C8_constructor_arguments "1" "all" "check/timestep/sph").1 "25" "0.5").2.1
  refine ⟨fix, hfix, hnev.trans hn, hwarn, ?_⟩
  have hr : |((atof "0.5" : ℚ) : ℝ)| ≤ 10 ^ 308 := by
    rw [hq, abs_le]
    constructor <;> norm_num
  rw [hlim (by decide) hr, hq]
  norm_num

/-- C9: the constructor fails with an error, and so constructs no fix, if fewer
than two positional arguments follow the three leading fix arguments, or if a
third positional token is present and is not the keyword `warn`, or if `warn`
is the last token with no value after it. -/
theorem C9_constructor_errors (arg : List String)
    (h : arg.length < 3 + 2 ∨ (∃ tok : String, arg[5]? = some tok ∧ tok ≠ "warn") ∨
      (arg[5]? = some "warn" ∧ arg.length = 6)) :
    ∃ msg : String,
      (FixCheckTimestepSph.FixCheckTimestepSph arg : Except String (FixCheckTimestepSph ℝ))
        = .error msg := by
  rcases h with h | ⟨tok, htok, hne⟩ | ⟨-, hlen⟩
  · refine ⟨"Illegal fix check/timestep/sph command, not enough arguments", ?_⟩
    simp only [FixCheckTimestepSph.FixCheckTimestepSph, h, if_true]
  · have hlt : 5 < arg.length := by
      rcases Nat.lt_or_ge 5 arg.length with h5 | h5
      · exact h5
      · rw [List.getElem?_eq_none h5] at htok
        cases htok
    have hget : arg.getD 5 "" = tok := by
      rw [List.getD_eq_getElem?_getD, htok]
      rfl
    have h5 : ¬ arg.length < 3 + 2 := by omega
    by_cases h7 : arg.length < 3 + 2 + 2
    · refine ⟨"Illegal fix check/timestep/sph command, not enough arguments", ?_⟩
      simp only [FixCheckTimestepSph.FixCheckTimestepSph, h5, hlt, h7, if_true, if_false]
    · refine ⟨"Illegal fix check/timestep/sph command, use keyword \x27warn\x27", ?_⟩
      simp only [FixCheckTimestepSph.FixCheckTimestepSph, h5, hlt, h7, hget, hne, ne_eq,
        not_false_eq_true, if_true, if_false]
  · have h5 : ¬ arg.length < 3 + 2 := by omega
    have hlt : 3 + 2 < arg.length := by omega
    have h7 : arg.length < 3 + 2 + 2 := by omega
    refine ⟨"Illegal fix check/timestep/sph command, not enough arguments", ?_⟩
    simp only [FixCheckTimestepSph.FixCheckTimestepSph, h5, hlt, h7, if_true, if_false]

/-- C9, witness: `fix 1 all check/timestep/sph 10 0.1 warn` ends with `warn`. -/
theorem C9_constructor_errors_witness :
    ∃ msg : String,
      (FixCheckTimestepSph.FixCheckTimestepSph ["1", "all", "check/timestep/sph", "10", "0.1", "warn"] :
        Except String (FixCheckTimestepSph ℝ)) = .error msg :=
  C9_constructor_errors ["1", "all", "check/timestep/sph", "10", "0.1", "warn"]
    (Or.inr (Or.inr ⟨rfl, rfl⟩))

/-- C10, as amended: for every value token `v` the argument list `n f warn v` is
accepted: `v = no` switches the warnings off, and every other `v` (`yes` or any
other token) leaves them on, exactly as `n f` alone does. -/
theorem C10_warn_value_is_not_validated (a0 a1 a2 n f v : String) (hv : v ≠ "no") :
    (∃ fix : FixCheckTimestepSph ℝ,
        FixCheckTimestepSph.FixCheckTimestepSph [a0, a1, a2, n, f, "warn", v] = .ok fix ∧
          fix.warnflag = true ∧
          FixCheckTimestepSph.FixCheckTimestepSph [a0, a1, a2, n, f] = .ok fix) ∧
      (∃ fix : FixCheckTimestepSph ℝ,
        FixCheckTimestepSph.FixCheckTimestepSph [a0, a1, a2, n, f, "warn", "no"] = .ok fix ∧
          fix.warnflag = false) := by
  refine ⟨⟨_, ?_, rfl, rfl⟩, ⟨_, rfl, rfl⟩⟩
  simp [FixCheckTimestepSph.FixCheckTimestepSph, hv]

/-- C10, witness: the value `on`. -/
theorem C10_warn_value_is_not_validated_witness :
    ∃ fix : FixCheckTimestepSph ℝ,
      FixCheckTimestepSph.FixCheckTimestepSph
          ["1", "all", "check/timestep/sph", "10", "0.1", "warn", "on"] = .ok fix ∧
        fix.warnflag = true ∧
        FixCheckTimestepSph.FixCheckTimestepSph
          ["1", "all", "check/timestep/sph", "10", "0.1"] = .ok fix :=
  (C10_warn_value_is_not_validated "1" "all" "check/timestep/sph" "10" "0.1" "on"
    (by decide)).1

/-- C10, counterexample to the claim as stated: `maybe` is neither `yes` nor
`no`, and `fix 1 all check/timestep/sph 10 0.1 warn maybe` is accepted, with the
warnings on. -/
theorem C10_counterexample_value_accepted :
    "maybe" ≠ "yes" ∧ "maybe" ≠ "no" ∧
      ∃ fix : FixCheckTimestepSph ℝ,
        FixCheckTimestepSph.FixCheckTimestepSph
            ["1", "all", "check/timestep/sph", "10", "0.1", "warn", "maybe"] = .ok fix ∧
          fix.warnflag = true :=
  ⟨by decide, by decide, _, rfl, rfl⟩

end FixArguments

/-! ## Auxiliary facts about `FixCheckTimestepSph` -/

section ScanLemmas

open FixCheckTimestepSph

/-- The scan reads the object only through `groupbit`, `kernel_cut`, `slComType`,
`cs_values` and `interpDist`. -/
theorem scanLocal_congr (MASSFLAG : Bool) (fix fix' : FixCheckTimestepSphObject ℝ)
    (a : SphAtoms ℝ) (hg : fix'.groupbit = fix.groupbit) (hk : fix'.kernel_cut = fix.kernel_cut)
    (hs : fix'.slComType = fix.slComType) (hc : fix'.cs_values = fix.cs_values)
    (hi : fix'.interpDist = fix.interpDist) :
    scanLocal Real.sqrt MASSFLAG fix' a = scanLocal Real.sqrt MASSFLAG fix a := by
  have hstep : particleStep Real.sqrt MASSFLAG fix' a = particleStep Real.sqrt MASSFLAG fix a := by
    funext st i
    have hn : neighbourStep MASSFLAG fix' a i = neighbourStep MASSFLAG fix a i := by
      funext p j
      simp only [neighbourStep, FixCheckTimestepSph.mu, slCom, hg, hk, hs, hi]
    simp only [particleStep, courant_time_one, neighbourLoop, hn, hg, hc]
  simp only [scanLocal, hstep]

/-- The object after `calc_courant_estims` keeps the members the constructor set. -/
theorem calc_courant_estims_base (fix : FixCheckTimestepSphObject ℝ) (a : SphAtoms ℝ)
    (others : List (SphAtoms ℝ)) :
    (calc_courant_estims Real.sqrt fix a others).toFixCheckTimestepSph
      = fix.toFixCheckTimestepSph := by
  unfold calc_courant_estims
  split <;> rfl

/-- The reduced `vmax` and `courant_time` depend on the object only through the
members the scan reads. -/
theorem calc_courant_estims_congr (fix fix' : FixCheckTimestepSphObject ℝ) (a : SphAtoms ℝ)
    (others : List (SphAtoms ℝ)) (hm : fix'.mass_type = fix.mass_type)
    (hg : fix'.groupbit = fix.groupbit) (hk : fix'.kernel_cut = fix.kernel_cut)
    (hs : fix'.slComType = fix.slComType) (hc : fix'.cs_values = fix.cs_values)
    (hi : fix'.interpDist = fix.interpDist) :
    (calc_courant_estims Real.sqrt fix' a others).vmax
        = (calc_courant_estims Real.sqrt fix a others).vmax ∧
      (calc_courant_estims Real.sqrt fix' a others).courant_time
        = (calc_courant_estims Real.sqrt fix a others).courant_time := by
  have h : ∀ (MASSFLAG : Bool) (o : SphAtoms ℝ),
      scanLocal Real.sqrt MASSFLAG fix' o = scanLocal Real.sqrt MASSFLAG fix o :=
    fun MASSFLAG o => scanLocal_congr MASSFLAG fix fix' o hg hk hs hc hi
  unfold calc_courant_estims
  rw [hm]
  split <;> simp [calc_courant_estims_eval, h]

/-- When the skin warning is among the warnings printed. -/
theorem advisories_skin_iff (fix : FixCheckTimestepSphObject ℝ) (env : StepEnv ℝ) :
    (∃ w ∈ advisories fix env, w.isSkin = true) ↔
      fix.warnflag = true ∧ env.me = 0 ∧ fix.fraction_skin > 1 / 10 ∧
        (env.screen = true ∨ env.logfile = true) := by
  unfold advisories
  by_cases hme : env.me = 0 <;> by_cases hs : (10 : ℝ)⁻¹ < fix.fraction_skin <;>
    by_cases hc : fix.fraction_courant_lim < fix.fraction_courant <;>
    cases hw : fix.warnflag <;> cases h1 : env.screen <;> cases h2 : env.logfile <;>
    simp [hme, hs, hc, Advisory.isSkin]

/-- When the Courant warning is among the warnings printed. -/
theorem advisories_courant_iff (fix : FixCheckTimestepSphObject ℝ) (env : StepEnv ℝ) :
    (∃ w ∈ advisories fix env, w.isCourant = true) ↔
      fix.warnflag = true ∧ env.me = 0 ∧ fix.fraction_courant > fix.fraction_courant_lim ∧
        (env.screen = true ∨ env.logfile = true) := by
  unfold advisories
  by_cases hme : env.me = 0 <;> by_cases hs : (10 : ℝ)⁻¹ < fix.fraction_skin <;>
    by_cases hc : fix.fraction_courant_lim < fix.fraction_courant <;>
    cases hw : fix.warnflag <;> cases h1 : env.screen <;> cases h2 : env.logfile <;>
    simp [hme, hs, hc, Advisory.isCourant]

/-- With the warnings switched off nothing is printed. -/
theorem advisories_of_warnflag_false (fix : FixCheckTimestepSphObject ℝ) (env : StepEnv ℝ)
    (hw : fix.warnflag = false) : advisories fix env = [] := by
  simp [advisories, hw]

/-- The constructor on `fix 1 all check/timestep/sph 10 0.1`. -/
theorem constructor_ten_tenth :
    FixCheckTimestepSph.FixCheckTimestepSph ["1", "all", "check/timestep/sph", "10", "0.1"]
      = .ok (exFix ℝ true (1 / 10)).toFixCheckTimestepSph := by
  have hn : atoi "10" = 10 := by decide
  have hp : atofParts "0.1" = (false, 1, -1) := by decide
  have hq : atof "0.1" = 1 / 10 := by
    simp only [atof, hp, scale10]
    norm_num
  have hf : ((atof "0.1" : ℚ) : ℝ) = 1 / 10 := by
    rw [hq]
    norm_num
  have h : FixCheckTimestepSph.FixCheckTimestepSph
      ["1", "all", "check/timestep/sph", "10", "0.1"]
      = .ok
        ({ nevery := atoi "10"
           fraction_courant_lim := ((atof "0.1" : ℚ) : ℝ)
           warnflag := true
           vector_flag := 1
           size_vector := 2
           global_freq := atoi "10"
           extvector := 1
           fraction_courant := 0
           fraction_skin := 0 } : FixCheckTimestepSph ℝ) := rfl
  rw [h, hn, hf]
  rfl

/-- The scan of the process that owns both particles of the pair. -/
theorem scanLocal_exPairWhole :
    scanLocal Real.sqrt false (exFix ℝ true 1) (exPairWhole ℝ)
      = { vmax := 1, mumax := 3 / 2, courant_time := 2 / 5, sli := 2, j_maxmu := 1 } := by
  have h11 : Int.land 1 1 ≠ 0 := by decide
  simp [scanLocal, visited, List.range_succ, exPairWhole, exTwo, exFix, particleStep,
    courant_time_one, neighbourLoop, FixCheckTimestepSph.sli, neighbourStep,
    FixCheckTimestepSph.mu, slCom, rsq, vmag, MIN, BIG, h11]
  norm_num

/-- The scan of the process that owns the first particle of the pair. -/
theorem scanLocal_exPairFirst :
    scanLocal Real.sqrt false (exFix ℝ true 1) (exPairFirst ℝ)
      = { vmax := 1, mumax := 3 / 2, courant_time := 2 / 5, sli := 1, j_maxmu := 1 } := by
  have h11 : Int.land 1 1 ≠ 0 := by decide
  simp [scanLocal, visited, List.range_succ, exPairFirst, exTwo, exFix, particleStep,
    courant_time_one, neighbourLoop, FixCheckTimestepSph.sli, neighbourStep,
    FixCheckTimestepSph.mu, slCom, rsq, vmag, MIN, BIG, h11]
  norm_num

/-- The scan of the process that owns the second particle of the pair. -/
theorem scanLocal_exPairSecond :
    scanLocal Real.sqrt false (exFix ℝ true 1) (exPairSecond ℝ)
      = { vmax := 0, mumax := 3 / 2, courant_time := 4 / 5, sli := 2, j_maxmu := 1 } := by
  have h11 : Int.land 1 1 ≠ 0 := by decide
  simp [scanLocal, visited, List.range_succ, exPairSecond, exTwo, exFix, particleStep,
    courant_time_one, neighbourLoop, FixCheckTimestepSph.sli, neighbourStep,
    FixCheckTimestepSph.mu, slCom, rsq, vmag, MIN, BIG, h11]
  norm_num

/-- The largest speed of the fast pair is `2`, whatever the warning settings. -/
theorem calc_courant_estims_exPairFast_vmax (warnflag : Bool) (lim : ℝ) :
    (calc_courant_estims Real.sqrt (exFix ℝ warnflag lim) (exPairFast ℝ) []).vmax = 2 := by
  have h11 : Int.land 1 1 ≠ 0 := by decide
  have h4 : Real.sqrt (2 * 2) = 2 := by
    rw [Real.sqrt_mul_self]
    norm_num
  simp [calc_courant_estims, calc_courant_estims_eval, MPI_Max_Scalar, scanLocal, visited,
    List.range_succ, exPairFast, exTwo, exFix, particleStep, vmag, h11, h4]

end ScanLemmas

/-! ## The fractions and warnings of `end_of_step` -/

section EndOfStep

open FixCheckTimestepSph

/-- C11: after `end_of_step`, `fraction_courant = dt / courant_time` and
`fraction_skin = (vmax * dt) / skin` with the `vmax` and `courant_time` that the
scan of this call produced; and two runs with equal `dt`, `skin`, `vmax` and
`courant_time` end with equal fractions, whatever their `warnflag`, rank and
previous fractions. -/
theorem C11_fractions_from_scan :
    (∀ (fix : FixCheckTimestepSphObject ℝ) (env : StepEnv ℝ) (a : SphAtoms ℝ)
        (others : List (SphAtoms ℝ)),
      (end_of_step Real.sqrt fix env a others).1.vmax
          = (calc_courant_estims Real.sqrt fix a others).vmax ∧
        (end_of_step Real.sqrt fix env a others).1.courant_time
          = (calc_courant_estims Real.sqrt fix a others).courant_time ∧
        (end_of_step Real.sqrt fix env a others).1.fraction_courant
          = env.dt / (end_of_step Real.sqrt fix env a others).1.courant_time ∧
        (end_of_step Real.sqrt fix env a others).1.fraction_skin
          = (end_of_step Real.sqrt fix env a others).1.vmax * env.dt / env.skin) ∧
    (∀ (fix fix' : FixCheckTimestepSphObject ℝ) (env env' : StepEnv ℝ) (a a' : SphAtoms ℝ)
        (others others' : List (SphAtoms ℝ)),
      env.dt = env'.dt → env.skin = env'.skin →
      (end_of_step Real.sqrt fix env a others).1.vmax
        = (end_of_step Real.sqrt fix' env' a' others').1.vmax →
      (end_of_step Real.sqrt fix env a others).1.courant_time
        = (end_of_step Real.sqrt fix' env' a' others').1.courant_time →
        (end_of_step Real.sqrt fix env a others).1.fraction_courant
            = (end_of_step Real.sqrt fix' env' a' others').1.fraction_courant ∧
          (end_of_step Real.sqrt fix env a others).1.fraction_skin
            = (end_of_step Real.sqrt fix' env' a' others').1.fraction_skin) := by
  have h1 : ∀ (fix : FixCheckTimestepSphObject ℝ) (env : StepEnv ℝ) (a : SphAtoms ℝ)
      (others : List (SphAtoms ℝ)),
      (end_of_step Real.sqrt fix env a others).1.fraction_courant
          = env.dt / (end_of_step Real.sqrt fix env a others).1.courant_time ∧
        (end_of_step Real.sqrt fix env a others).1.fraction_skin
          = (end_of_step Real.sqrt fix env a others).1.vmax * env.dt / env.skin :=
    fun _ _ _ _ => ⟨rfl, rfl⟩
  refine ⟨fun fix env a others => ⟨rfl, rfl, (h1 fix env a others).1, (h1 fix env a others).2⟩,
    ?_⟩
  intro fix fix' env env' a a' others others' hdt hskin hv hc
  rw [(h1 fix env a others).1, (h1 fix env a others).2, (h1 fix' env' a' others').1,
    (h1 fix' env' a' others').2, hdt, hskin, hv, hc]
  exact ⟨rfl, rfl⟩

/-- C11, witness: the same two particles scanned by an object with warnings on at
rank `0` and by an object with warnings off and another limit at rank `3`, with
`dt = 1/100` and `skin = 1/10` in both runs: equal fractions. -/
theorem C11_fractions_from_scan_witness :
    (end_of_step Real.sqrt (exFix ℝ true 1) ⟨1 / 10, 1 / 100, 0, true, true⟩
          (exPairFast ℝ) []).1.fraction_courant
        = (end_of_step Real.sqrt (exFix ℝ false 5) ⟨1 / 10, 1 / 100, 3, false, true⟩
          (exPairFast ℝ) []).1.fraction_courant ∧
      (end_of_step Real.sqrt (exFix ℝ true 1) ⟨1 / 10, 1 / 100, 0, true, true⟩
          (exPairFast ℝ) []).1.fraction_skin
        = (end_of_step Real.sqrt (exFix ℝ false 5) ⟨1 / 10, 1 / 100, 3, false, true⟩
          (exPairFast ℝ) []).1.fraction_skin :=
  C11_fractions_from_scan.2 (exFix ℝ true 1) (exFix ℝ false 5)
    ⟨1 / 10, 1 / 100, 0, true, true⟩ ⟨1 / 10, 1 / 100, 3, false, true⟩ (exPairFast ℝ)
    (exPairFast ℝ) [] [] rfl rfl
    (calc_courant_estims_congr (exFix ℝ false 5) (exFix ℝ true 1) (exPairFast ℝ) [] rfl rfl rfl
      rfl rfl rfl).1
    (calc_courant_estims_congr (exFix ℝ false 5) (exFix ℝ true 1) (exPairFast ℝ) [] rfl rfl rfl
      rfl rfl rfl).2

/-- C12: `compute_vector(0)` returns `fraction_courant`, `compute_vector(1)`
returns `fraction_skin`, every other index returns `0`; the object is left as it
was; and on an object fresh from the constructor both outputs are `0`. -/
theorem C12_compute_vector (fix : FixCheckTimestepSphObject ℝ) :
    compute_vector fix 0 = (fix.fraction_courant, fix) ∧
      compute_vector fix 1 = (fix.fraction_skin, fix) ∧
      (∀ n : Int, n ≠ 0 → n ≠ 1 → compute_vector fix n = (0, fix)) ∧
      (∀ n : Int, (compute_vector fix n).2 = fix) ∧
      (∀ (arg : List String) (made : FixCheckTimestepSph ℝ),
        FixCheckTimestepSph.FixCheckTimestepSph arg = .ok made →
        fix.toFixCheckTimestepSph = made →
          (compute_vector fix 0).1 = 0 ∧ (compute_vector fix 1).1 = 0) := by
  refine ⟨rfl, rfl, ?_, ?_, ?_⟩
  · intro n h0 h1
    simp [compute_vector, h0, h1]
  · intro n
    unfold compute_vector
    split_ifs <;> rfl
  · intro arg made hmade hfix
    have hz : made.fraction_courant = 0 ∧ made.fraction_skin = 0 := by
      unfold FixCheckTimestepSph.FixCheckTimestepSph at hmade
      simp only at hmade
      split at hmade
      · cases hmade
      · split at hmade
        · cases hmade
        · cases hmade
          exact ⟨rfl, rfl⟩
    have hc : fix.fraction_courant = made.fraction_courant := by rw [← hfix]
    have hs : fix.fraction_skin = made.fraction_skin := by rw [← hfix]
    exact ⟨by simp [compute_vector, hc, hz.1], by simp [compute_vector, hs, hz.2]⟩

/-- C12, witness: an object whose constructor-set members come from the arguments
`10 0.1` returns `0` at both indices. -/
theorem C12_compute_vector_witness :
    (compute_vector (exFix ℝ true (1 / 10)) 0).1 = 0 ∧
      (compute_vector (exFix ℝ true (1 / 10)) 1).1 = 0 :=
  (C12_compute_vector (exFix ℝ true (1 / 10))).2.2.2.2
    ["1", "all", "check/timestep/sph", "10", "0.1"]
    (exFix ℝ true (1 / 10)).toFixCheckTimestepSph
    constructor_ten_tenth rfl

/-- C13: in `end_of_step` with an output stream present, the skin warning is
printed if and only if `warnflag` is set, the process is rank `0` and
`fraction_skin > 0.1`; the Courant warning if and only if `warnflag` is set, the
process is rank `0` and `fraction_courant > fraction_courant_lim`; with `warnflag`
off nothing is printed; and a scan giving `vmax = 2` with `dt = 0.01`,
`skin = 0.1` gives `fraction_skin = 0.2` and, at rank `0`, the skin warning
exactly when `warnflag` is set. -/
theorem C13_warnings :
    (∀ (fix : FixCheckTimestepSphObject ℝ) (env : StepEnv ℝ) (a : SphAtoms ℝ)
        (others : List (SphAtoms ℝ)),
      env.screen = true ∨ env.logfile = true →
        ((∃ w ∈ (end_of_step Real.sqrt fix env a others).2, w.isSkin = true) ↔
            fix.warnflag = true ∧ env.me = 0 ∧
              (end_of_step Real.sqrt fix env a others).1.fraction_skin > 1 / 10) ∧
          ((∃ w ∈ (end_of_step Real.sqrt fix env a others).2, w.isCourant = true) ↔
            fix.warnflag = true ∧ env.me = 0 ∧
              (end_of_step Real.sqrt fix env a others).1.fraction_courant
                > fix.fraction_courant_lim)) ∧
    (∀ (fix : FixCheckTimestepSphObject ℝ) (env : StepEnv ℝ) (a : SphAtoms ℝ)
        (others : List (SphAtoms ℝ)),
      fix.warnflag = false → (end_of_step Real.sqrt fix env a others).2 = []) ∧
    (∀ (fix : FixCheckTimestepSphObject ℝ) (env : StepEnv ℝ) (a : SphAtoms ℝ)
        (others : List (SphAtoms ℝ)),
      (calc_courant_estims Real.sqrt fix a others).vmax = 2 →
      env.dt = 1 / 100 → env.skin = 1 / 10 → env.me = 0 →
      env.screen = true ∨ env.logfile = true →
        (end_of_step Real.sqrt fix env a others).1.fraction_skin = 1 / 5 ∧
          ((∃ w ∈ (end_of_step Real.sqrt fix env a others).2, w.isSkin = true) ↔
            fix.warnflag = true)) := by
  have hbase : ∀ (fix : FixCheckTimestepSphObject ℝ) (env : StepEnv ℝ) (a : SphAtoms ℝ)
      (others : List (SphAtoms ℝ)),
      (end_of_step Real.sqrt fix env a others).1.warnflag = fix.warnflag ∧
        (end_of_step Real.sqrt fix env a others).1.fraction_courant_lim
          = fix.fraction_courant_lim := by
    intro fix env a others
    have h := calc_courant_estims_base fix a others
    have hw : (end_of_step Real.sqrt fix env a others).1.warnflag
        = (calc_courant_estims Real.sqrt fix a others).warnflag := rfl
    have hl : (end_of_step Real.sqrt fix env a others).1.fraction_courant_lim
        = (calc_courant_estims Real.sqrt fix a others).fraction_courant_lim := rfl
    exact ⟨hw.trans (congrArg FixCheckTimestepSph.warnflag h),
      hl.trans (congrArg FixCheckTimestepSph.fraction_courant_lim h)⟩
  have hout : ∀ (fix : FixCheckTimestepSphObject ℝ) (env : StepEnv ℝ) (a : SphAtoms ℝ)
      (others : List (SphAtoms ℝ)),
      (end_of_step Real.sqrt fix env a others).2
        = advisories (end_of_step Real.sqrt fix env a others).1 env := fun _ _ _ _ => rfl
  have hskin : ∀ (fix : FixCheckTimestepSphObject ℝ) (env : StepEnv ℝ) (a : SphAtoms ℝ)
      (others : List (SphAtoms ℝ)),
      env.screen = true ∨ env.logfile = true →
        ((∃ w ∈ (end_of_step Real.sqrt fix env a others).2, w.isSkin = true) ↔
          fix.warnflag = true ∧ env.me = 0 ∧
            (end_of_step Real.sqrt fix env a others).1.fraction_skin > 1 / 10) := by
    intro fix env a others hsink
    rw [hout, advisories_skin_iff, (hbase fix env a others).1]
    constructor
    · rintro ⟨h1, h2, h3, -⟩
      exact ⟨h1, h2, h3⟩
    · rintro ⟨h1, h2, h3⟩
      exact ⟨h1, h2, h3, hsink⟩
  refine ⟨?_, ?_, ?_⟩
  · intro fix env a others hsink
    refine ⟨hskin fix env a others hsink, ?_⟩
    rw [hout, advisories_courant_iff, (hbase fix env a others).1, (hbase fix env a others).2]
    constructor
    · rintro ⟨h1, h2, h3, -⟩
      exact ⟨h1, h2, h3⟩
    · rintro ⟨h1, h2, h3⟩
      exact ⟨h1, h2, h3, hsink⟩
  · intro fix env a others hw
    rw [hout]
    exact advisories_of_warnflag_false _ _ (by rw [(hbase fix env a others).1, hw])
  · intro fix env a others hv hdt hsk hme hsink
    have hf : (end_of_step Real.sqrt fix env a others).1.fraction_skin = 1 / 5 := by
      show (calc_courant_estims Real.sqrt fix a others).vmax * env.dt / env.skin = 1 / 5
      rw [hv, hdt, hsk]
      norm_num
    refine ⟨hf, ?_⟩
    rw [hskin fix env a others hsink, hf]
    constructor
    · rintro ⟨h1, -, -⟩
      exact h1
    · intro h1
      exact ⟨h1, hme, by norm_num⟩

/-- C13, witness: `vmax = 2` from the fast pair, `dt = 1/100`, `skin = 1/10`, rank
`0`, both streams present, warnings on: `fraction_skin = 1/5` and the skin
warning is printed. -/
theorem C13_warnings_witness :
    (end_of_step Real.sqrt (exFix ℝ true 1) ⟨1 / 10, 1 / 100, 0, true, true⟩
        (exPairFast ℝ) []).1.fraction_skin = 1 / 5 ∧
      ((∃ w ∈ (end_of_step Real.sqrt (exFix ℝ true 1) ⟨1 / 10, 1 / 100, 0, true, true⟩
          (exPairFast ℝ) []).2, w.isSkin = true) ↔ (exFix ℝ true 1).warnflag = true) :=
  C13_warnings.2.2 (exFix ℝ true 1) ⟨1 / 10, 1 / 100, 0, true, true⟩ (exPairFast ℝ) []
    (calc_courant_estims_exPairFast_vmax true 1) rfl rfl rfl (Or.inl rfl)

end EndOfStep

/-! ## The reductions of `calc_courant_estims_eval` -/

section Reduction

open FixCheckTimestepSph

/-- C14, the code at the failing input: two processes, one owning particle `P`
(local `courant_time = 2/5`, local `vmax = 1`), one owning particle `Q` (local
`courant_time = 4/5`, local `vmax = 0`).  On both processes the reduced `vmax` is
`1`, the maximum of the local values, and the reduced `courant_time` is `4/5`,
the maximum of the local values too, not their minimum `2/5`. -/
theorem C14_courant_time_reduced_by_maximum :
    (scanLocal Real.sqrt false (exFix ℝ true 1) (exPairFirst ℝ)).courant_time = 2 / 5 ∧
      (scanLocal Real.sqrt false (exFix ℝ true 1) (exPairSecond ℝ)).courant_time = 4 / 5 ∧
      (scanLocal Real.sqrt false (exFix ℝ true 1) (exPairFirst ℝ)).vmax = 1 ∧
      (scanLocal Real.sqrt false (exFix ℝ true 1) (exPairSecond ℝ)).vmax = 0 ∧
      (calc_courant_estims_eval Real.sqrt false (exFix ℝ true 1) (exPairFirst ℝ)
        [exPairSecond ℝ]).vmax = 1 ∧
      (calc_courant_estims_eval Real.sqrt false (exFix ℝ true 1) (exPairSecond ℝ)
        [exPairFirst ℝ]).vmax = 1 ∧
      (calc_courant_estims_eval Real.sqrt false (exFix ℝ true 1) (exPairFirst ℝ)
        [exPairSecond ℝ]).courant_time = 4 / 5 ∧
      (calc_courant_estims_eval Real.sqrt false (exFix ℝ true 1) (exPairSecond ℝ)
        [exPairFirst ℝ]).courant_time = 4 / 5 ∧
      (calc_courant_estims_eval Real.sqrt false (exFix ℝ true 1) (exPairFirst ℝ)
        [exPairSecond ℝ]).courant_time
        ≠ min (scanLocal Real.sqrt false (exFix ℝ true 1) (exPairFirst ℝ)).courant_time
            (scanLocal Real.sqrt false (exFix ℝ true 1) (exPairSecond ℝ)).courant_time := by
  have h1 := scanLocal_exPairFirst
  have h2 := scanLocal_exPairSecond
  simp only [calc_courant_estims_eval, MPI_Max_Scalar, List.map, List.foldl, h1, h2]
  norm_num

/-- C15, the code at the failing input: the pair `P`, `Q` held by one process
gives the reduced `courant_time = 2/5`; the same pair split over two processes
gives `4/5`; `vmax` is `1` in both partitions. -/
theorem C15_courant_time_depends_on_partition :
    (calc_courant_estims_eval Real.sqrt false (exFix ℝ true 1) (exPairWhole ℝ)
        []).courant_time = 2 / 5 ∧
      (calc_courant_estims_eval Real.sqrt false (exFix ℝ true 1) (exPairFirst ℝ)
        [exPairSecond ℝ]).courant_time = 4 / 5 ∧
      (calc_courant_estims_eval Real.sqrt false (exFix ℝ true 1) (exPairSecond ℝ)
        [exPairFirst ℝ]).courant_time = 4 / 5 ∧
      (calc_courant_estims_eval Real.sqrt false (exFix ℝ true 1) (exPairWhole ℝ) []).vmax = 1 ∧
      (calc_courant_estims_eval Real.sqrt false (exFix ℝ true 1) (exPairFirst ℝ)
        [exPairSecond ℝ]).vmax = 1 := by
  have h0 := scanLocal_exPairWhole
  have h1 := scanLocal_exPairFirst
  have h2 := scanLocal_exPairSecond
  simp only [calc_courant_estims_eval, MPI_Max_Scalar, List.map, List.foldl, h0, h1, h2]
  norm_num

end Reduction

/-! ## Torsion, the frame of the history buffer, and the touch marker -/

section RollingBehaviour

open RollingModel

/-- The bits of a one-bit mask `2^b`. -/
theorem testBit_two_pow_int (b k : Nat) : Int.testBit ((2 : Int) ^ b) k = decide (b = k) := by
  have h : ((2 : Int) ^ b) = ((2 ^ b : Nat) : Int) := by push_cast; rfl
  rw [h]
  show Nat.testBit (2 ^ b) k = decide (b = k)
  exact Nat.testBit_two_pow

/-- With a unit normal, a spin `s*en` has no tangential part. -/
theorem wr_t_of_parallel (en : Vec3 ℝ) (s : ℝ) (hen : Vec3.dot en en = 1) :
    wr_t en (s * en.x) (s * en.y) (s * en.z) = ⟨0, 0, 0⟩ := by
  simp only [Vec3.dot] at hen
  simp only [wr_t, wr_n, wr_dot_delta, Vec3.mk.injEq]
  refine ⟨?_, ?_, ?_⟩
  · have : s * en.x - en.x * (s * en.x * en.x + s * en.y * en.y + s * en.z * en.z)
        = s * en.x * (1 - (en.x * en.x + en.y * en.y + en.z * en.z)) := by ring
    rw [this, hen]; ring
  · have : s * en.y - en.y * (s * en.x * en.x + s * en.y * en.y + s * en.z * en.z)
        = s * en.y * (1 - (en.x * en.x + en.y * en.y + en.z * en.z)) := by ring
    rw [this, hen]; ring
  · have : s * en.z - en.z * (s * en.x * en.x + s * en.y * en.y + s * en.z * en.z)
        = s * en.z * (1 - (en.x * en.x + en.y * en.y + en.z * en.z)) := by ring
    rw [this, hen]; ring

/-- With a unit normal and a spin `s*en` the candidate is the stored history. -/
theorem r_torque_candidate_of_parallel (m : RollingModel ℝ) (cdata : CollisionData ℝ)
    (reff s : ℝ) (hen : Vec3.dot cdata.en cdata.en = 1) :
    r_torque_candidate m cdata reff (s * cdata.en.x) (s * cdata.en.y) (s * cdata.en.z)
      = historySlice cdata.contact_history m.history_offset := by
  simp [r_torque_candidate, wr_t_of_parallel cdata.en s hen, vectorScalarMult3D]

/-- The stores of `calcRollTorque` touch only the three slots of the model. -/
theorem calcRollTorque_frame (m : RollingModel ℝ) (cdata : CollisionData ℝ)
    (reff wr1 wr2 wr3 : ℝ) (k : Int)
    (hk : k < m.history_offset ∨ m.history_offset + 2 < k) :
    (calcRollTorque Real.sqrt m cdata reff wr1 wr2 wr3).2 k = cdata.contact_history k := by
  simp only [calcRollTorque]
  apply storeHistory_of_ne <;> omega

/-- C16: for every unit contact normal `en` and every relative spin `wr`, the
vector `wr_t` of `calcRollTorque` satisfies `wr_t . en = 0` and
`wr = wr_t + (wr . en)*en`; a spin `s*en` parallel to `en` gives a candidate equal
to the stored history; and a `collision` with zero stored history and such a
spin (in the wall branch `(wr1,wr2,wr3)`, otherwise `omega[i] - omega[j]`), with
a yield bound `|Fn|*reff*rmu` that is not negative (and, between two particles,
`radi + radj` not zero), changes neither torque accumulator and leaves the
history zero. -/
theorem C16_torsion_is_discarded (en : Vec3 ℝ) (hen : vectorMag3D Real.sqrt en = 1) :
    (∀ wr1 wr2 wr3 : ℝ,
      Vec3.dot (wr_t en wr1 wr2 wr3) en = 0 ∧
        (⟨wr1, wr2, wr3⟩ : Vec3 ℝ)
          = Vec3.add (wr_t en wr1 wr2 wr3) (Vec3.smul (Vec3.dot ⟨wr1, wr2, wr3⟩ en) en)) ∧
    (∀ (m : RollingModel ℝ) (cdata : CollisionData ℝ) (reff s : ℝ), cdata.en = en →
      r_torque_candidate m cdata reff (s * en.x) (s * en.y) (s * en.z)
        = historySlice cdata.contact_history m.history_offset) ∧
    (∀ (m : RollingModel ℝ) (cdata : CollisionData ℝ) (i_forces j_forces : ForceData ℝ)
        (s : ℝ), cdata.en = en →
      historySlice cdata.contact_history m.history_offset = ⟨0, 0, 0⟩ →
      (cdata.is_wall = true →
        cdata.wr1 = s * en.x ∧ cdata.wr2 = s * en.y ∧ cdata.wr3 = s * en.z) →
      (cdata.is_wall = false →
        vectorSubtract3D (m.omega cdata.i) (m.omega cdata.j) = Vec3.smul s en) →
      (cdata.is_wall = true →
        0 ≤ |cdata.Fn| * cdata.radi * m.coeffRollFrict cdata.itype cdata.jtype) →
      (cdata.is_wall = false →
        cdata.radi + cdata.radj ≠ 0 ∧
          0 ≤ |cdata.Fn| * (cdata.radi * cdata.radj / (cdata.radi + cdata.radj))
            * m.coeffRollFrict cdata.itype cdata.jtype) →
        (collision Real.sqrt m cdata i_forces j_forces).i_forces.delta_torque
            = i_forces.delta_torque ∧
          (collision Real.sqrt m cdata i_forces j_forces).j_forces.delta_torque
            = j_forces.delta_torque ∧
          historySlice (collision Real.sqrt m cdata i_forces j_forces).cdata.contact_history
            m.history_offset = ⟨0, 0, 0⟩) := by
  have hdot : Vec3.dot en en = 1 := by
    have h := hen
    simp only [vectorMag3D] at h
    exact Real.sqrt_eq_one.mp h
  refine ⟨?_, ?_, ?_⟩
  · intro wr1 wr2 wr3
    have hd := hdot
    simp only [Vec3.dot] at hd
    constructor
    · simp only [Vec3.dot, wr_t, wr_n, wr_dot_delta]
      have : (wr1 - en.x * (wr1 * en.x + wr2 * en.y + wr3 * en.z)) * en.x
            + (wr2 - en.y * (wr1 * en.x + wr2 * en.y + wr3 * en.z)) * en.y
            + (wr3 - en.z * (wr1 * en.x + wr2 * en.y + wr3 * en.z)) * en.z
          = (wr1 * en.x + wr2 * en.y + wr3 * en.z)
            * (1 - (en.x * en.x + en.y * en.y + en.z * en.z)) := by ring
      rw [this, hd]; ring
    · simp only [Vec3.add, Vec3.smul, Vec3.dot, wr_t, wr_n, wr_dot_delta, Vec3.mk.injEq]
      refine ⟨?_, ?_, ?_⟩ <;> ring
  · intro m cdata reff s hc
    subst hc
    exact r_torque_candidate_of_parallel m cdata reff s hdot
  · intro m cdata i_forces j_forces s hc hz hwall hpart hbw hbp
    subst hc
    have hzero : ∀ reff : ℝ, 0 ≤ r_torque_max m cdata reff →
        (calcRollTorque Real.sqrt m cdata reff (s * cdata.en.x) (s * cdata.en.y)
          (s * cdata.en.z)).1 = ⟨0, 0, 0⟩ := by
      intro reff hb
      have hcand := (r_torque_candidate_of_parallel m cdata reff s hdot).trans hz
      rw [calcRollTorque_unclipped m cdata reff _ _ _ (by
        rw [hcand]
        simpa [vectorMag3D] using hb), hcand]
    obtain ⟨r, hi, hj, hh⟩ := collision_applies_one_torque m cdata i_forces j_forces
    have hr : r = ⟨0, 0, 0⟩ := by
      cases hw : cdata.is_wall
      · obtain ⟨-, -, h3⟩ := collision_particle m cdata i_forces j_forces hw
        have hp := hpart hw
        simp only [Vec3.smul] at hp
        rw [hp] at h3
        simp only at h3
        rw [hzero _ (hbp hw).2] at h3
        rw [h3] at hj
        have : Vec3.add j_forces.delta_torque r = Vec3.add j_forces.delta_torque ⟨0, 0, 0⟩ :=
          hj.symm
        simp only [Vec3.add, Vec3.mk.injEq, add_right_inj] at this
        cases r
        simp only [Vec3.mk.injEq]
        exact this
      · obtain ⟨-, -, h3⟩ := collision_wall m cdata i_forces j_forces hw
        obtain ⟨h1, h2, h3'⟩ := hwall hw
        rw [h1, h2, h3', hzero _ (hbw hw)] at h3
        rw [h3] at hj
        have : Vec3.add j_forces.delta_torque r = Vec3.add j_forces.delta_torque ⟨0, 0, 0⟩ :=
          hj.symm
        simp only [Vec3.add, Vec3.mk.injEq, add_right_inj] at this
        cases r
        simp only [Vec3.mk.injEq]
        exact this
    subst hr
    refine ⟨?_, ?_, hh⟩
    · rw [hi]; simp [Vec3.sub]
    · rw [hj]; simp [Vec3.add]

/-- C16, witness: the normal `(0,0,1)`.  The tangential part of the spin
`(1,2,3)` is orthogonal to the normal; and a wall contact of a particle of radius
`1` with `Fn = 10`, `rmu = 1`, zero stored history and the torsional spin
`(0,0,3)` leaves both torque accumulators and the history as they were. -/
theorem C16_torsion_is_discarded_witness :
    Vec3.dot (wr_t (⟨0, 0, 1⟩ : Vec3 ℝ) 1 2 3) ⟨0, 0, 1⟩ = 0 ∧
      (collision Real.sqrt (exModel ℝ 1) (exTorsion ℝ) ⟨⟨0, 0, 0⟩, ⟨4, 5, 6⟩⟩
          ⟨⟨0, 0, 0⟩, ⟨7, 8, 9⟩⟩).i_forces.delta_torque = ⟨4, 5, 6⟩ ∧
      (collision Real.sqrt (exModel ℝ 1) (exTorsion ℝ) ⟨⟨0, 0, 0⟩, ⟨4, 5, 6⟩⟩
          ⟨⟨0, 0, 0⟩, ⟨7, 8, 9⟩⟩).j_forces.delta_torque = ⟨7, 8, 9⟩ ∧
      historySlice
          (collision Real.sqrt (exModel ℝ 1) (exTorsion ℝ) ⟨⟨0, 0, 0⟩, ⟨4, 5, 6⟩⟩
            ⟨⟨0, 0, 0⟩, ⟨7, 8, 9⟩⟩).cdata.contact_history
          (exModel ℝ 1).history_offset = ⟨0, 0, 0⟩ :=
  ⟨((C16_torsion_is_discarded ⟨0, 0, 1⟩ (by simp [vectorMag3D])).1 1 2 3).1,
    (C16_torsion_is_discarded ⟨0, 0, 1⟩ (by simp [vectorMag3D])).2.2 (exModel ℝ 1)
      (exTorsion ℝ) ⟨⟨0, 0, 0⟩, ⟨4, 5, 6⟩⟩ ⟨⟨0, 0, 0⟩, ⟨7, 8, 9⟩⟩ 3 rfl
      (by simp [historySlice, exTorsion, exModel])
      (fun _ => by simp [exTorsion])
      (fun h => by simp [exTorsion] at h)
      (fun _ => by simp [exTorsion, exModel])
      (fun h => by simp [exTorsion] at h)⟩

/-- C17: for every contact-history buffer and every index `k` outside
`history_offset .. history_offset+2`, `collision` and `noCollision` leave
`buffer[k]` as it was. -/
theorem C17_history_frame (m : RollingModel ℝ) (cdata : CollisionData ℝ) (cd : ContactData ℝ)
    (i_forces j_forces : ForceData ℝ) (k : Int)
    (hk : k < m.history_offset ∨ m.history_offset + 2 < k) :
    (collision Real.sqrt m cdata i_forces j_forces).cdata.contact_history k
        = cdata.contact_history k ∧
      (noCollision m cd i_forces j_forces).cdata.contact_history k = cd.contact_history k := by
  constructor
  · cases hw : cdata.is_wall
    · rw [(collision_particle m cdata i_forces j_forces hw).1]
      exact calcRollTorque_frame m cdata _ _ _ _ k hk
    · rw [(collision_wall m cdata i_forces j_forces hw).1]
      exact calcRollTorque_frame m cdata _ _ _ _ k hk
  · show storeHistory cd.contact_history m.history_offset ⟨0, 0, 0⟩ k = cd.contact_history k
    apply storeHistory_of_ne <;> omega

/-- C17, witness: with `history_offset = 0`, slot `3` keeps its value `7` through
`noCollision` and through `collision`. -/
theorem C17_history_frame_witness :
    (collision Real.sqrt (exModel ℝ 1) (exData ℝ 1 1 10 0) ⟨⟨0, 0, 0⟩, ⟨0, 0, 0⟩⟩
          ⟨⟨0, 0, 0⟩, ⟨0, 0, 0⟩⟩).cdata.contact_history 3
        = (exData ℝ 1 1 10 0).contact_history 3 ∧
      (noCollision (exModel ℝ 1) { touch := some 15, contact_history := fun _ => 7 }
          ⟨⟨0, 0, 0⟩, ⟨0, 0, 0⟩⟩ ⟨⟨0, 0, 0⟩, ⟨0, 0, 0⟩⟩).cdata.contact_history 3
        = (fun _ => (7 : ℝ)) (3 : Int) :=
  C17_history_frame (exModel ℝ 1) (exData ℝ 1 1 10 0)
    { touch := some 15, contact_history := fun _ => 7 } ⟨⟨0, 0, 0⟩, ⟨0, 0, 0⟩⟩
    ⟨⟨0, 0, 0⟩, ⟨0, 0, 0⟩⟩ 3 (Or.inr (by decide))

/-- C18: let `TOUCH_ROLLING_MODEL` be the single bit `2^b` and the touch marker
be non-null.  After `collision` bit `b` of the marker is set and every other bit
is as before; after `noCollision` bit `b` is clear, every other bit is as before
and the three history scalars are `0`.  So after either call, from any prior
state, a clear bit `b` implies a zero history slice. -/
theorem C18_touch_bit_and_history (m : RollingModel ℝ) (b : Nat)
    (hM : m.TOUCH_ROLLING_MODEL = 2 ^ b) (cdata : CollisionData ℝ) (cd : ContactData ℝ)
    (i_forces j_forces : ForceData ℝ) (t u : Int) (ht : cdata.touch = some t)
    (hu : cd.touch = some u) :
    (∃ t' : Int, (collision Real.sqrt m cdata i_forces j_forces).cdata.touch = some t' ∧
        Int.testBit t' b = true ∧
        (∀ k : Nat, k ≠ b → Int.testBit t' k = Int.testBit t k) ∧
        (Int.testBit t' b = false →
          historySlice (collision Real.sqrt m cdata i_forces j_forces).cdata.contact_history
            m.history_offset = ⟨0, 0, 0⟩)) ∧
      (∃ u' : Int, (noCollision m cd i_forces j_forces).cdata.touch = some u' ∧
        Int.testBit u' b = false ∧
        (∀ k : Nat, k ≠ b → Int.testBit u' k = Int.testBit u k) ∧
        historySlice (noCollision m cd i_forces j_forces).cdata.contact_history
          m.history_offset = ⟨0, 0, 0⟩ ∧
        (Int.testBit u' b = false →
          historySlice (noCollision m cd i_forces j_forces).cdata.contact_history
            m.history_offset = ⟨0, 0, 0⟩)) := by
  have hz : historySlice (noCollision m cd i_forces j_forces).cdata.contact_history
      m.history_offset = ⟨0, 0, 0⟩ := historySlice_storeHistory _ _ _
  constructor
  · refine ⟨Int.lor t m.TOUCH_ROLLING_MODEL, ?_, ?_, ?_, ?_⟩
    · simp [collision, ht]
    · rw [Int.testBit_lor, hM, testBit_two_pow_int]
      simp
    · intro k hk
      rw [Int.testBit_lor, hM, testBit_two_pow_int]
      simp [Ne.symm hk]
    · intro hclear
      rw [Int.testBit_lor, hM, testBit_two_pow_int] at hclear
      simp at hclear
  · refine ⟨Int.land u (Int.lnot m.TOUCH_ROLLING_MODEL), ?_, ?_, ?_, hz, fun _ => hz⟩
    · simp [noCollision, hu]
    · rw [Int.testBit_land, Int.testBit_lnot, hM, testBit_two_pow_int]
      simp
    · intro k hk
      rw [Int.testBit_land, Int.testBit_lnot, hM, testBit_two_pow_int]
      simp [Ne.symm hk]

/-- C18, witness: `TOUCH_ROLLING_MODEL = 8 = 2^3`, marker `0` before `collision`
and marker `15` before `noCollision`. -/
theorem C18_touch_bit_and_history_witness :
    ∃ u' : Int,
      (noCollision (exModel ℝ 1) { touch := some 15, contact_history := fun _ => 7 }
          ⟨⟨0, 0, 0⟩, ⟨0, 0, 0⟩⟩ ⟨⟨0, 0, 0⟩, ⟨0, 0, 0⟩⟩).cdata.touch = some u' ∧
        Int.testBit u' 3 = false ∧
        (∀ k : Nat, k ≠ 3 → Int.testBit u' k = Int.testBit 15 k) ∧
        historySlice
            (noCollision (exModel ℝ 1) { touch := some 15, contact_history := fun _ => 7 }
              ⟨⟨0, 0, 0⟩, ⟨0, 0, 0⟩⟩ ⟨⟨0, 0, 0⟩, ⟨0, 0, 0⟩⟩).cdata.contact_history
            (exModel ℝ 1).history_offset = ⟨0, 0, 0⟩ ∧
        (Int.testBit u' 3 = false →
          historySlice
              (noCollision (exModel ℝ 1) { touch := some 15, contact_history := fun _ => 7 }
                ⟨⟨0, 0, 0⟩, ⟨0, 0, 0⟩⟩ ⟨⟨0, 0, 0⟩, ⟨0, 0, 0⟩⟩).cdata.contact_history
              (exModel ℝ 1).history_offset = ⟨0, 0, 0⟩) :=
  (C18_touch_bit_and_history (exModel ℝ 1) 3 rfl (exData ℝ 1 1 10 0)
    { touch := some 15, contact_history := fun _ => 7 } ⟨⟨0, 0, 0⟩, ⟨0, 0, 0⟩⟩
    ⟨⟨0, 0, 0⟩, ⟨0, 0, 0⟩⟩ 0 15 rfl rfl).2

end RollingBehaviour

/-! ## The local scan: `vmax` and the per-particle crossing time -/

section LocalScan

open FixCheckTimestepSph

/-- A running maximum is at least its start. -/
theorem le_foldl_max_init (L : List ℝ) (init : ℝ) : init ≤ L.foldl max init := by
  induction L generalizing init with
  | nil => exact le_refl _
  | cons x L ih => exact le_trans (le_max_left init x) (ih (max init x))

/-- A running maximum is at least every element met. -/
theorem le_foldl_max_of_mem (L : List ℝ) (init x : ℝ) (hx : x ∈ L) : x ≤ L.foldl max init := by
  induction L generalizing init with
  | nil => cases hx
  | cons y L ih =>
    rcases List.mem_cons.mp hx with h | h
    · subst h
      exact le_trans (le_max_right init x) (le_foldl_max_init L (max init x))
    · exact ih (max init y) h

/-- A running maximum is its start or one of the elements met. -/
theorem foldl_max_eq_init_or_mem (L : List ℝ) (init : ℝ) :
    L.foldl max init = init ∨ L.foldl max init ∈ L := by
  induction L generalizing init with
  | nil => exact Or.inl rfl
  | cons y L ih =>
    rcases ih (max init y) with h | h
    · rcases max_choice init y with hm | hm
      · exact Or.inl (by rw [List.foldl_cons, h, hm])
      · exact Or.inr (by rw [List.foldl_cons, h, hm]; exact List.mem_cons_self _ _)
    · exact Or.inr (List.mem_cons_of_mem _ h)

/-- The update of `vmax` on line 222 is a maximum. -/
theorem vmax_update_eq_max (x v : ℝ) : (if x > v then x else v) = max v x := by
  by_cases h : x > v
  · rw [if_pos h, max_eq_right (le_of_lt h)]
  · rw [if_neg h, max_eq_left (not_lt.mp h)]

/-- The `vmax` left by the loop over a list of particles is the running maximum
of the speeds of those of them that are in the group. -/
theorem foldl_particleStep_vmax (MASSFLAG : Bool) (fix : FixCheckTimestepSphObject ℝ)
    (a : SphAtoms ℝ) (L : List Int) (st : ScanLocals ℝ) :
    (L.foldl (particleStep Real.sqrt MASSFLAG fix a) st).vmax
      = ((L.filter fun i => decide (Int.land (a.mask i) fix.groupbit ≠ 0)).map
          (vmag Real.sqrt a)).foldl max st.vmax := by
  induction L generalizing st with
  | nil => rfl
  | cons i L ih =>
    rw [List.foldl_cons, ih]
    by_cases h : Int.land (a.mask i) fix.groupbit = 0
    · simp [particleStep, h]
    · have hv : (particleStep Real.sqrt MASSFLAG fix a st i).vmax
          = max st.vmax (vmag Real.sqrt a i) := by
        simp only [particleStep, h, if_false]
        exact vmax_update_eq_max _ _
      simp [h, hv]

/-- The scan of the four particles. -/
theorem scanLocal_exFour :
    scanLocal Real.sqrt false (exFix ℝ true 1) (exFour ℝ)
      = { vmax := 2, mumax := 4, courant_time := 1 / 5, sli := 1, j_maxmu := 2 } := by
  have h11 : Int.land 1 1 ≠ 0 := by decide
  have h4 : Real.sqrt 4 = 2 := by
    have h : (4 : ℝ) = 2 * 2 := by norm_num
    rw [h, Real.sqrt_mul_self]
    norm_num
  simp [scanLocal, visited, List.range_succ, exFour, exFix, particleStep,
    courant_time_one, neighbourLoop, FixCheckTimestepSph.sli, neighbourStep,
    FixCheckTimestepSph.mu, slCom, rsq, vmag, MIN, BIG, h11, h4]
  norm_num

/-- C19: before the reduction, the local `vmax` of `calc_courant_estims_eval` is
the running maximum, started at `0`, of the speeds `sqrt(vx^2+vy^2+vz^2)` of the
owned particles whose mask has the group bit: it bounds each of these speeds, it
is attained by one of them when there is one, it is `0` when there is none, and
it is the same for every previous value of the members of the object and in
both smoothing-length modes. -/
theorem C19_local_vmax (MASSFLAG : Bool) (fix : FixCheckTimestepSphObject ℝ) (a : SphAtoms ℝ) :
    (scanLocal Real.sqrt MASSFLAG fix a).vmax
        = (((visited a).filter fun i => decide (Int.land (a.mask i) fix.groupbit ≠ 0)).map
            fun i => Real.sqrt ((a.v i).x * (a.v i).x + (a.v i).y * (a.v i).y
              + (a.v i).z * (a.v i).z)).foldl max 0 ∧
      (∀ i ∈ visited a, Int.land (a.mask i) fix.groupbit ≠ 0 →
        vmag Real.sqrt a i ≤ (scanLocal Real.sqrt MASSFLAG fix a).vmax) ∧
      ((∃ i ∈ visited a, Int.land (a.mask i) fix.groupbit ≠ 0) →
        ∃ i ∈ visited a, Int.land (a.mask i) fix.groupbit ≠ 0 ∧
          (scanLocal Real.sqrt MASSFLAG fix a).vmax = vmag Real.sqrt a i) ∧
      ((∀ i ∈ visited a, Int.land (a.mask i) fix.groupbit = 0) →
        (scanLocal Real.sqrt MASSFLAG fix a).vmax = 0) ∧
      (∀ (MASSFLAG' : Bool) (fix' : FixCheckTimestepSphObject ℝ),
        fix'.groupbit = fix.groupbit →
          (scanLocal Real.sqrt MASSFLAG' fix' a).vmax
            = (scanLocal Real.sqrt MASSFLAG fix a).vmax) := by
  have hform : ∀ (M : Bool) (f : FixCheckTimestepSphObject ℝ),
      (scanLocal Real.sqrt M f a).vmax
        = (((visited a).filter fun i => decide (Int.land (a.mask i) f.groupbit ≠ 0)).map
            (vmag Real.sqrt a)).foldl max 0 := fun M f =>
    foldl_particleStep_vmax M f a (visited a) _
  have hmem : ∀ i, i ∈ visited a → Int.land (a.mask i) fix.groupbit ≠ 0 →
      vmag Real.sqrt a i
        ∈ ((visited a).filter fun i => decide (Int.land (a.mask i) fix.groupbit ≠ 0)).map
            (vmag Real.sqrt a) := by
    intro i hi hg
    exact List.mem_map.mpr ⟨i, List.mem_filter.mpr ⟨hi, by simpa using hg⟩, rfl⟩
  refine ⟨hform MASSFLAG fix, ?_, ?_, ?_, ?_⟩
  · intro i hi hg
    rw [hform]
    exact le_foldl_max_of_mem _ _ _ (hmem i hi hg)
  · rintro ⟨i, hi, hg⟩
    rcases foldl_max_eq_init_or_mem
        (((visited a).filter fun i => decide (Int.land (a.mask i) fix.groupbit ≠ 0)).map
          (vmag Real.sqrt a)) 0 with h | h
    · refine ⟨i, hi, hg, ?_⟩
      have hle : vmag Real.sqrt a i ≤ 0 := by
        rw [← h]
        exact le_foldl_max_of_mem _ _ _ (hmem i hi hg)
      have hge : 0 ≤ vmag Real.sqrt a i := Real.sqrt_nonneg _
      rw [hform, h]
      exact le_antisymm hge hle
    · obtain ⟨k, hk, hkv⟩ := List.mem_map.mp h
      obtain ⟨hk1, hk2⟩ := List.mem_filter.mp hk
      exact ⟨k, hk1, by simpa using hk2, by rw [hform]; exact hkv.symm⟩
  · intro hnone
    rw [hform]
    have hnil : ((visited a).filter fun i => decide (Int.land (a.mask i) fix.groupbit ≠ 0))
        = [] := by
      apply List.filter_eq_nil_iff.mpr
      intro i hi
      simpa using hnone i hi
    rw [hnil]
    rfl
  · intro M' fix' hg
    rw [hform M' fix', hform MASSFLAG fix, hg]

/-- C19, witness: the pair held by one process has an owned particle in the
group, and its local `vmax` is the speed of one of them. -/
theorem C19_local_vmax_witness :
    ∃ i ∈ visited (exPairWhole ℝ),
      Int.land ((exPairWhole ℝ).mask i) (exFix ℝ true 1).groupbit ≠ 0 ∧
        (scanLocal Real.sqrt false (exFix ℝ true 1) (exPairWhole ℝ)).vmax
          = vmag Real.sqrt (exPairWhole ℝ) i :=
  (C19_local_vmax false (exFix ℝ true 1) (exPairWhole ℝ)).2.2.1
    ⟨0, by simp [visited, exPairWhole, exTwo, List.range_succ], by decide⟩

/-- C20, the code at the failing input: two owned particles, `0` with the single
neighbour `2` (approach rate `4`) and `1` with the single neighbour `3`
(approach rate `1`).  From its own neighbours alone the candidate of particle
`1` would be `1/(1+1) = 1/2` and the local `courant_time` would be `2/5`; the
scan handles particle `1` with the `mumax = 4` and `j_maxmu = 2` left by
particle `0`, computes the candidate `1/(1+4) = 1/5`, and ends with
`courant_time = 1/5`. -/
theorem C20_candidate_uses_earlier_mumax :
    FixCheckTimestepSph.mu false (exFix ℝ true 1) (exFour ℝ) 0 2 = 4 ∧
      FixCheckTimestepSph.mu false (exFix ℝ true 1) (exFour ℝ) 1 3 = 1 ∧
      specCourantTimeOne (exFix ℝ true 1) (exFour ℝ) 0 = some (2 / 5) ∧
      specCourantTimeOne (exFix ℝ true 1) (exFour ℝ) 1 = some (1 / 2) ∧
      neighbourLoop false (exFix ℝ true 1) (exFour ℝ)
          { vmax := 2, mumax := 4, courant_time := 2 / 5, sli := 2, j_maxmu := 2 } 1 = (4, 2) ∧
      courant_time_one false (exFix ℝ true 1) (exFour ℝ)
          { vmax := 2, mumax := 4, courant_time := 2 / 5, sli := 2, j_maxmu := 2 } 1 = 1 / 5 ∧
      particleStep Real.sqrt false (exFix ℝ true 1) (exFour ℝ)
          { vmax := 0, mumax := 0, courant_time := BIG, sli := 0, j_maxmu := 0 } 0
        = { vmax := 2, mumax := 4, courant_time := 2 / 5, sli := 2, j_maxmu := 2 } ∧
      (scanLocal Real.sqrt false (exFix ℝ true 1) (exFour ℝ)).courant_time = 1 / 5 ∧
      (scanLocal Real.sqrt false (exFix ℝ true 1) (exFour ℝ)).courant_time
        ≠ MIN (MIN BIG (2 / 5)) (1 / 2) := by
  have h11 : Int.land 1 1 ≠ 0 := by decide
  have h4 : Real.sqrt 4 = 2 := by
    have h : (4 : ℝ) = 2 * 2 := by norm_num
    rw [h, Real.sqrt_mul_self]
    norm_num
  refine ⟨?_, ?_, ?_, ?_, ?_, ?_, ?_, ?_, ?_⟩
  · simp [FixCheckTimestepSph.mu, slCom, rsq, exFour, exFix]
    norm_num
  · simp [FixCheckTimestepSph.mu, slCom, rsq, exFour, exFix]
    norm_num
  · simp [specCourantTimeOne, specOwnMaximum, FixCheckTimestepSph.mu, slCom, rsq, exFour,
      exFix, h11]
    norm_num
  · simp [specCourantTimeOne, specOwnMaximum, FixCheckTimestepSph.mu, slCom, rsq, exFour,
      exFix, h11]
    norm_num
  · simp [neighbourLoop, neighbourStep, FixCheckTimestepSph.mu, slCom, rsq, exFour, exFix, h11]
    norm_num
  · simp [courant_time_one, neighbourLoop, FixCheckTimestepSph.sli, neighbourStep,
      FixCheckTimestepSph.mu, slCom, rsq, exFour, exFix, h11]
    norm_num
  · simp [particleStep, courant_time_one, neighbourLoop, FixCheckTimestepSph.sli,
      neighbourStep, FixCheckTimestepSph.mu, slCom, rsq, vmag, MIN, BIG, exFour, exFix, h11, h4]
    norm_num
  · rw [scanLocal_exFour]
  · rw [scanLocal_exFour]
    simp only [MIN, BIG]
    norm_num

end LocalScan

/-! ## The locals `sli` and `j_maxmu` of the scan -/

section UninitialisedLocals

open FixCheckTimestepSph

/-- C21, the code at the failing inputs.  Per-type mode (`mass_type = 1`): the
pair `P`, `Q` scanned with `sli` holding `1` on entry gives `courant_time = 1/2`
and with `sli` holding `3` on entry gives `3/2`, since `sli` is never assigned in
this mode and `courant_time_one = sli / (cmean + mumax)` reads it; the
per-particle mode gives `2/5` for both.  Per-particle mode, one particle with an
empty neighbour list: with `j_maxmu` holding `0` on entry `courant_time = 1`, with
`j_maxmu` holding `5` on entry `courant_time = 1/2`, since `j_maxmu` is assigned
only when a neighbour raises `mumax` and `cmean` reads `type[j_maxmu]`. -/
theorem C21_scan_reads_unassigned_locals :
    (calc_courant_estims Real.sqrt (exFixPerType ℝ) (exPairEntry ℝ 1) []).courant_time
        = 1 / 2 ∧
      (calc_courant_estims Real.sqrt (exFixPerType ℝ) (exPairEntry ℝ 3) []).courant_time
        = 3 / 2 ∧
      (calc_courant_estims Real.sqrt (exFix ℝ true 1) (exPairEntry ℝ 1) []).courant_time
        = 2 / 5 ∧
      (calc_courant_estims Real.sqrt (exFix ℝ true 1) (exPairEntry ℝ 3) []).courant_time
        = 2 / 5 ∧
      (calc_courant_estims Real.sqrt (exFixTwoSpeeds ℝ) (exLone ℝ 0) []).courant_time = 1 ∧
      (calc_courant_estims Real.sqrt (exFixTwoSpeeds ℝ) (exLone ℝ 5) []).courant_time
        = 1 / 2 := by
  have h11 : Int.land 1 1 ≠ 0 := by decide
  refine ⟨?_, ?_, ?_, ?_, ?_, ?_⟩
  · simp [calc_courant_estims, calc_courant_estims_eval, MPI_Max_Scalar, scanLocal, visited,
      List.range_succ, exFixPerType, exPairEntry, exPairWhole, exTwo, exFix, particleStep,
      courant_time_one, neighbourLoop, FixCheckTimestepSph.sli, neighbourStep,
      FixCheckTimestepSph.mu, slCom, rsq, vmag, MIN, BIG, h11]
    norm_num
  · simp [calc_courant_estims, calc_courant_estims_eval, MPI_Max_Scalar, scanLocal, visited,
      List.range_succ, exFixPerType, exPairEntry, exPairWhole, exTwo, exFix, particleStep,
      courant_time_one, neighbourLoop, FixCheckTimestepSph.sli, neighbourStep,
      FixCheckTimestepSph.mu, slCom, rsq, vmag, MIN, BIG, h11]
    norm_num
  · simp [calc_courant_estims, calc_courant_estims_eval, MPI_Max_Scalar, scanLocal, visited,
      List.range_succ, exPairEntry, exPairWhole, exTwo, exFix, particleStep,
      courant_time_one, neighbourLoop, FixCheckTimestepSph.sli, neighbourStep,
      FixCheckTimestepSph.mu, slCom, rsq, vmag, MIN, BIG, h11]
    norm_num
  · simp [calc_courant_estims, calc_courant_estims_eval, MPI_Max_Scalar, scanLocal, visited,
      List.range_succ, exPairEntry, exPairWhole, exTwo, exFix, particleStep,
      courant_time_one, neighbourLoop, FixCheckTimestepSph.sli, neighbourStep,
      FixCheckTimestepSph.mu, slCom, rsq, vmag, MIN, BIG, h11]
    norm_num
  · simp [calc_courant_estims, calc_courant_estims_eval, MPI_Max_Scalar, scanLocal, visited,
      List.range_succ, exFixTwoSpeeds, exLone, exFix, particleStep,
      courant_time_one, neighbourLoop, FixCheckTimestepSph.sli, neighbourStep,
      FixCheckTimestepSph.mu, slCom, rsq, vmag, MIN, BIG, h11]
    norm_num
  · simp [calc_courant_estims, calc_courant_estims_eval, MPI_Max_Scalar, scanLocal, visited,
      List.range_succ, exFixTwoSpeeds, exLone, exFix, particleStep,
      courant_time_one, neighbourLoop, FixCheckTimestepSph.sli, neighbourStep,
      FixCheckTimestepSph.mu, slCom, rsq, vmag, MIN, BIG, h11]
    norm_num

end UninitialisedLocals

/-! ## `CreateBox::command` -/

section CreateBoxCommand

open CreateBox

/-- A call with a box already defined raises an error. -/
theorem command_error_of_box_exist (env : CreateBoxEnv ℝ) (s : CreateBoxState ℝ)
    (arg : List String) (h : s.domain.box_exist ≠ 0) :
    ∃ msg : String, command env s arg = .error msg := by
  by_cases hn : arg.length < 2
  · exact ⟨"Illegal create_box command", by simp only [command, hn, if_true]⟩
  · exact ⟨"Cannot create_box after simulation box is defined", by
      simp only [command, hn, h, ne_eq, not_false_eq_true, if_true, if_false]⟩

/-- What a call that returns has done. -/
theorem command_ok_inv (env : CreateBoxEnv ℝ) (s done : CreateBoxState ℝ) (arg : List String)
    (h : command env s arg = .ok done) :
    s.domain.box_exist = 0 ∧
      ∃ (domain : Domain ℝ) (ntypes : Int),
        setBox env { s.domain with box_exist := 1 }
            (s.domain.regions (env.find_region (arg.getD 1 ""))) = .ok domain ∧
          env.inumeric (arg.getD 0 "") = .ok ntypes ∧
          done = { domain := domain, atom := setTypes s.atom ntypes, update := { ntimestep := 0 } } := by
  unfold command at h
  simp only at h
  split at h
  · cases h
  split at h
  · cases h
  rename_i hbox
  split at h
  · cases h
  split at h
  · cases h
  split at h
  · cases h
  split at h
  · cases h
  split at h
  · cases h
  rename_i domain hdom
  split at h
  · cases h
  rename_i ntypes hnum
  split at h
  · cases h
  have hdone : done
      = { domain := domain, atom := setTypes s.atom ntypes, update := { ntimestep := 0 } } := by
    split at h
    · cases h; rfl
    · split at h
      · cases h
      · cases h; rfl
  exact ⟨not_not.mp hbox, domain, ntypes, hdom, hnum, hdone⟩

/-- The box set from a region leaves `box_exist` alone, provided `set_domain`
does. -/
theorem setBox_box_exist (env : CreateBoxEnv ℝ) (domain next : Domain ℝ) (region : Region ℝ)
    (hframe : ∀ (d : Domain ℝ) (r : Region ℝ), (env.set_domain d r).box_exist = d.box_exist)
    (h : setBox env domain region = .ok next) : next.box_exist = domain.box_exist := by
  unfold setBox at h
  simp only at h
  split at h
  · cases h; rfl
  · split at h
    · split at h
      · cases h
      · cases h
        exact hframe domain region
    · cases h; rfl

/-- The box set from a region that is neither a prism nor a wedge. -/
theorem setBox_of_box_region (env : CreateBoxEnv ℝ) (domain : Domain ℝ) (region : Region ℝ)
    (hp : region.style ≠ "prism") (hw : region.style ≠ "wedge") :
    setBox env domain region
      = .ok
        { domain with
          triclinic := 0
          boxlo := ⟨region.extent_xlo, region.extent_ylo, region.extent_zlo⟩
          boxhi := ⟨region.extent_xhi, region.extent_yhi, region.extent_zhi⟩ } := by
  simp [setBox, hp, hw]

/-- A call that returns leaves `box_exist = 1`, provided `set_domain` leaves
`box_exist` alone. -/
theorem command_ok_box_exist (env : CreateBoxEnv ℝ) (s done : CreateBoxState ℝ)
    (arg : List String)
    (hframe : ∀ (d : Domain ℝ) (r : Region ℝ), (env.set_domain d r).box_exist = d.box_exist)
    (h : command env s arg = .ok done) : done.domain.box_exist = 1 := by
  obtain ⟨-, domain, ntypes, hdom, -, hdone⟩ := command_ok_inv env s done arg h
  rw [hdone]
  exact setBox_box_exist env _ domain _ hframe hdom

/-- In a run of calls at most one returns. -/
theorem commandSequence_le_one (s : CreateBoxState ℝ)
    (calls : List (CreateBoxEnv ℝ × List String))
    (hframe : ∀ c ∈ calls, ∀ (d : Domain ℝ) (r : Region ℝ),
      (c.1.set_domain d r).box_exist = d.box_exist) :
    commandSequence s calls ≤ 1 := by
  cases calls with
  | nil => simp [commandSequence]
  | cons c rest =>
    unfold commandSequence
    split
    · exact Nat.zero_le _
    · rename_i next hnext
      have hb : next.domain.box_exist = 1 :=
        command_ok_box_exist c.1 s next c.2 (hframe c (List.mem_cons_self _ _)) hnext
      cases rest with
      | nil => simp [commandSequence]
      | cons c2 rest2 =>
        obtain ⟨msg, hmsg⟩ := command_error_of_box_exist c2.1 next c2.2 (by rw [hb]; decide)
        simp [commandSequence, hmsg]

/-- C22: `CreateBox::command` raises an error whenever `domain->box_exist` is
non-zero; every call that returns leaves `box_exist = 1` (for a wedge region
provided `DomainWedge::set_domain`, not under `src/`, leaves `box_exist` alone);
so in any run of calls at most one returns; and a call that returns with a
region whose style is neither `prism` nor `wedge` leaves `triclinic = 0`,
`boxlo` and `boxhi` equal to the region's `extent_` members in each dimension,
`atom->ntypes` equal to the value of `force->inumeric` on `arg[0]`, and
`update->ntimestep = 0`. -/
theorem C22_create_box_once :
    (∀ (env : CreateBoxEnv ℝ) (s : CreateBoxState ℝ) (arg : List String),
      s.domain.box_exist ≠ 0 → ∃ msg : String, command env s arg = .error msg) ∧
    (∀ (env : CreateBoxEnv ℝ) (s done : CreateBoxState ℝ) (arg : List String),
      (∀ (d : Domain ℝ) (r : Region ℝ), (env.set_domain d r).box_exist = d.box_exist) →
      command env s arg = .ok done → done.domain.box_exist = 1) ∧
    (∀ (s : CreateBoxState ℝ) (calls : List (CreateBoxEnv ℝ × List String)),
      (∀ c ∈ calls, ∀ (d : Domain ℝ) (r : Region ℝ),
        (c.1.set_domain d r).box_exist = d.box_exist) →
      commandSequence s calls ≤ 1) ∧
    (∀ (env : CreateBoxEnv ℝ) (s done : CreateBoxState ℝ) (arg : List String)
        (region : Region ℝ),
      region = s.domain.regions (env.find_region (arg.getD 1 "")) →
      region.style ≠ "prism" → region.style ≠ "wedge" →
      command env s arg = .ok done →
        done.domain.box_exist = 1 ∧
          done.domain.triclinic = 0 ∧
          done.domain.boxlo.x = region.extent_xlo ∧ done.domain.boxhi.x = region.extent_xhi ∧
          done.domain.boxlo.y = region.extent_ylo ∧ done.domain.boxhi.y = region.extent_yhi ∧
          done.domain.boxlo.z = region.extent_zlo ∧ done.domain.boxhi.z = region.extent_zhi ∧
          env.inumeric (arg.getD 0 "") = .ok done.atom.ntypes ∧
          done.update.ntimestep = 0) := by
  refine ⟨command_error_of_box_exist, command_ok_box_exist, commandSequence_le_one, ?_⟩
  intro env s done arg region hreg hp hw h
  obtain ⟨-, domain, ntypes, hdom, hnum, hdone⟩ := command_ok_inv env s done arg h
  rw [← hreg, setBox_of_box_region env _ region hp hw] at hdom
  cases hdom
  rw [hdone]
  exact ⟨rfl, rfl, rfl, rfl, rfl, rfl, rfl, rfl, hnum, rfl⟩

/-- C22, witness: `create_box 2 reg` on a state without a box, `reg` being a
`block` region with extents `(0,1)`, `(0,2)`, `(0,3)`: the call returns with
`box_exist = 1`, `triclinic = 0`, `boxhi = (1,2,3)`, `ntypes = 2` and time step
`0`, and a second call raises an error, so one call of the run returned. -/
theorem C22_create_box_once_witness :
    (∃ done : CreateBoxState ℝ,
        command (exBoxEnv ℝ) (exBoxState ℝ "block") ["2", "reg"] = .ok done ∧
          done.domain.box_exist = 1 ∧ done.domain.triclinic = 0 ∧
          done.domain.boxhi.x = 1 ∧ done.domain.boxhi.y = 2 ∧ done.domain.boxhi.z = 3 ∧
          done.atom.ntypes = 2 ∧ done.update.ntimestep = 0) ∧
      commandSequence (exBoxState ℝ "block")
          [(exBoxEnv ℝ, ["2", "reg"]), (exBoxEnv ℝ, ["3", "reg"])] ≤ 1 := by
  have hrun : ∃ done : CreateBoxState ℝ,
      command (exBoxEnv ℝ) (exBoxState ℝ "block") ["2", "reg"] = .ok done := ⟨_, rfl⟩
  obtain ⟨done, hdone⟩ := hrun
  have h := C22_create_box_once.2.2.2 (exBoxEnv ℝ) (exBoxState ℝ "block") done ["2", "reg"]
    (exRegion ℝ "block") rfl (by decide) (by decide) hdone
  obtain ⟨h1, h2, -, h4, -, h6, -, h8, h9, h10⟩ := h
  have hn : done.atom.ntypes = 2 := by
    have h9' : (Except.ok (atoi "2") : Except String Int) = .ok done.atom.ntypes := h9
    have h2' : atoi "2" = 2 := by decide
    rw [h2'] at h9'
    exact (Except.ok.inj h9').symm
  refine ⟨⟨done, hdone, h1, h2, h4, h6, h8, hn, h10⟩, ?_⟩
  exact C22_create_box_once.2.2.1 _ _ (fun c _ d r => by
    rename_i hc
    simp only [List.mem_cons, List.mem_singleton, List.not_mem_nil, or_false] at hc
    rcases hc with hc | hc <;> subst hc <;> rfl)

end CreateBoxCommand

end LIGGGHTS
